import Mathlib

/-!
# Verification of the Viz conversational data-exploration assistant

A shallow embedding of the repository's core: the dataset registry
(`dataset_registry.py`), the session model / query compiler
(`data_agent.py`), and the dialogue state machine with its two
mini-language text scanners (`chatbot.py`).  The query-execution backend
(`database.py`) and the chart renderer (`visualization.py`) are external
collaborators and are modelled as total oracle functions.

Python dictionaries are embedded as association lists that preserve
insertion order (keys unique, as maintained by upsert), matching CPython
dict semantics.  Python strings are Lean `String`s; `str.strip`,
`str.lower`, splitting and integer parsing are given explicit
character-list implementations (the repository vocabulary is ASCII) so that
every definition evaluates inside the kernel.
-/

namespace Viz

/-- Decimal digit list of a natural number, most significant first, with
explicit recursion fuel so that it reduces inside the kernel.  Fuel `n + 1`
is always sufficient for the number `n`. -/
def decDigits : Nat → Nat → List Char
  | 0, _ => []
  | fuel + 1, n =>
    if n < 10 then [Nat.digitChar n]
    else decDigits fuel (n / 10) ++ [Nat.digitChar (n % 10)]

/-- Decimal rendering of a natural number, the embedding of Python's
`str(int)` / f-string formatting for the non-negative integers that the
program formats (loop counters and the row limit). -/
def pyNatRepr (n : Nat) : String := ⟨decDigits (n + 1) n⟩

/-- Upsert into a Python dict modelled as an insertion-ordered association
list: overwriting an existing key keeps its original position, a new key is
appended at the end (CPython dict assignment semantics). -/
def dictUpsert {β : Type} (m : List (String × β)) (k : String) (v : β) :
    List (String × β) :=
  if m.any (fun p => p.1 == k) then
    m.map (fun p => if p.1 == k then (k, v) else p)
  else m ++ [(k, v)]

/-- `dict.fromkeys`-style deduplication: a left fold that appends an element
only when it has not been seen yet.  This is the embedding of
`list(dict.fromkeys([*x_fields, *breakdowns]))` in `set_visualization`. -/
def pyDedup (l : List String) : List String :=
  l.foldl (fun acc x => if x ∈ acc then acc else acc ++ [x]) []

/-- Fuelled worker for `firstOccurrenceDedup`; fuel `l.length` is always
sufficient because the filtered tail is never longer than the tail. -/
def firstOccurrenceDedupAux : Nat → List String → List String
  | 0, _ => []
  | _, [] => []
  | fuel + 1, x :: xs => x :: firstOccurrenceDedupAux fuel (xs.filter (fun y => y != x))

/-- Modelled from the spec's words: "dedup-by-first-occurrence" — keep each
element only at its first occurrence, preserving order.  Used to compare the
source's `dict.fromkeys` computation against the specification. -/
def firstOccurrenceDedup (l : List String) : List String :=
  firstOccurrenceDedupAux l.length l

/-- Python `str.lower()` (the repository vocabulary is ASCII). -/
def pyLower (s : String) : String := ⟨s.data.map Char.toLower⟩

/-- Python `str.upper()`. -/
def pyUpper (s : String) : String := ⟨s.data.map Char.toUpper⟩

/-- Python `str.strip()`: drop whitespace from both ends. -/
def pyStrip (s : String) : String :=
  ⟨((s.data.dropWhile Char.isWhitespace).reverse.dropWhile
      Char.isWhitespace).reverse⟩

/-- Python `sep in text` for a one-character separator. -/
def strContainsChar (s : String) (c : Char) : Bool := s.data.contains c

/-- Python `text.split(sep, 1)` for the one-character separators the program
uses: the part before the first occurrence and everything after it. -/
def splitOnceChar (c : Char) (s : String) : String × String :=
  let p := s.data.span (fun d => d != c)
  match p.2 with
  | [] => (⟨p.1⟩, "")
  | _ :: rest => (⟨p.1⟩, ⟨rest⟩)

/-- Worker for `pySplitOnChar`, accumulating the current field reversed. -/
def splitOnCharAux (c : Char) : List Char → List Char → List String
  | [], acc => [⟨acc.reverse⟩]
  | d :: ds, acc =>
    if d == c then (⟨acc.reverse⟩ : String) :: splitOnCharAux c ds []
    else splitOnCharAux c ds (d :: acc)

/-- Python `text.split(sep)` for a one-character separator (keeps empty
fields, like CPython). -/
def pySplitOnChar (c : Char) (s : String) : List String :=
  splitOnCharAux c s.data []

/-- Numeric value of a digit run. -/
def digitsVal (ds : List Char) : Nat :=
  ds.foldl (fun n c => n * 10 + (c.toNat - '0'.toNat)) 0

/-- Python `int(literal)` on the plain `-?[0-9]+` literals; Python
additionally tolerates `+` signs, underscores and surrounding whitespace,
which no verified behaviour relies on. -/
def pyIntParse? (s : String) : Option Int :=
  match s.data with
  | '-' :: ds =>
    if !ds.isEmpty && ds.all Char.isDigit then some (-(digitsVal ds : Int))
    else none
  | ds =>
    if !ds.isEmpty && ds.all Char.isDigit then some ((digitsVal ds : Int))
    else none

/-- Lexicographic order on code points, Python's string `<=`. -/
def lexLe : List Char → List Char → Bool
  | [], _ => true
  | _ :: _, [] => false
  | a :: as, b :: bs => if a == b then lexLe as bs else decide (a.toNat < b.toNat)

/-- Insert into a sorted list of strings (Python `sorted`, via insertion
sort; keys are distinct). -/
def insertSorted (x : String) : List String → List String
  | [] => [x]
  | y :: ys => if lexLe x.data y.data then x :: y :: ys else y :: insertSorted x ys

/-- Python `sorted` on strings. -/
def sortStrings (l : List String) : List String := l.foldr insertSorted []

/-- Python regex `\w` over the repository's ASCII vocabulary. -/
def isWordChar (c : Char) : Bool := c.isAlpha || c.isDigit || c == '_'

/-- First character of the regex column identifier class `[a-zA-Z_]`. -/
def isIdentStartChar (c : Char) : Bool := c.isAlpha || c == '_'

/-- Whether `needle` occurs as a contiguous sublist of the list: the
embedding of Python's substring test `needle in hay`. -/
def listHasSub (needle : List Char) : List Char → Bool
  | [] => needle.isEmpty
  | c :: cs => needle.isPrefixOf (c :: cs) || listHasSub needle cs

/-- Python's substring containment `needle in hay`. -/
def strHasSub (hay needle : String) : Bool := listHasSub needle.toList hay.toList

/-- Python's `str.startswith`. -/
def strStartsWith (s pre : String) : Bool := pre.toList.isPrefixOf s.toList

/-- Python's single-word `str.title()` used by `MeasureSpec.label`. -/
def pyTitle (s : String) : String :=
  match s.toList with
  | [] => ""
  | c :: cs => ⟨c.toUpper :: cs.map Char.toLower⟩

/-! ## Dataset registry (`dataset_registry.py`) -/

/-- A dataset column and its prompting metadata. -/
structure Column where
  name : String
  type : String
  role : String
  description : Option String
deriving DecidableEq

/-- A logical dataset exposed through the conversational interface. -/
structure Dataset where
  name : String
  table : String
  columns : List Column
  related : List String
  default_order_by : Option String
deriving DecidableEq

/-- The `DATASETS` registry dictionary, in source insertion order. -/
def DATASETS : List (String × Dataset) :=
  [ ("subscribers",
      { name := "subscribers", table := "subscribers"
        columns :=
          [ ⟨"user_id", "uuid", "identifier", some "Unique user identifier."⟩
          , ⟨"region", "string", "category", some "Geographic region for the user."⟩
          , ⟨"plan_type", "string", "category", some "Subscription plan type."⟩
          , ⟨"join_date", "date", "temporal", some "Date the user joined."⟩
          , ⟨"status", "string", "category", some "Current lifecycle status."⟩
          , ⟨"monthly_spend", "numeric", "measure", some "Average monthly revenue."⟩ ]
        related := ["payments", "logins"]
        default_order_by := some "join_date DESC" })
  , ("payments",
      { name := "payments", table := "payments"
        columns :=
          [ ⟨"payment_id", "uuid", "identifier", none⟩
          , ⟨"user_id", "uuid", "identifier", none⟩
          , ⟨"amount", "numeric", "measure", some "Net payment amount in USD."⟩
          , ⟨"currency", "string", "category", none⟩
          , ⟨"payment_date", "date", "temporal", none⟩
          , ⟨"status", "string", "category", none⟩ ]
        related := ["subscribers"]
        default_order_by := some "payment_date DESC" })
  , ("logins",
      { name := "logins", table := "logins"
        columns :=
          [ ⟨"user_id", "uuid", "identifier", none⟩
          , ⟨"login_date", "date", "temporal", none⟩
          , ⟨"login_count", "numeric", "measure", none⟩
          , ⟨"device_type", "string", "category", none⟩
          , ⟨"region", "string", "category", none⟩
          , ⟨"plan_type", "string", "category", none⟩ ]
        related := ["subscribers"]
        default_order_by := some "login_date DESC" })
  , ("tickets",
      { name := "tickets", table := "tickets"
        columns :=
          [ ⟨"ticket_id", "uuid", "identifier", none⟩
          , ⟨"user_id", "uuid", "identifier", none⟩
          , ⟨"opened_at", "timestamp", "temporal", none⟩
          , ⟨"resolved_at", "timestamp", "temporal", none⟩
          , ⟨"category", "string", "category", none⟩
          , ⟨"severity", "string", "category", none⟩
          , ⟨"status", "string", "category", none⟩
          , ⟨"response_time_hours", "numeric", "measure", none⟩ ]
        related := ["subscribers", "business_units"]
        default_order_by := some "opened_at DESC" })
  , ("business_units",
      { name := "business_units", table := "business_units"
        columns :=
          [ ⟨"unit_id", "uuid", "identifier", none⟩
          , ⟨"unit_name", "string", "category", none⟩
          , ⟨"region", "string", "category", none⟩
          , ⟨"revenue", "numeric", "measure", none⟩
          , ⟨"headcount", "numeric", "measure", none⟩ ]
        related := ["tickets", "payments"]
        default_order_by := some "revenue DESC" }) ]

/-- `list_datasets`: the sorted registry keys. -/
def list_datasets : List String :=
  sortStrings (DATASETS.map (fun p => p.1))

/-! ## Session model data types (`data_agent.py`) -/

/-- A Python scalar filter value as the program distinguishes them:
a string, or a numeric with its `str()` display text (the program never
computes with the number, only formats it). -/
inductive PyScalar where
  | s (v : String)
  | n (display : String)
deriving DecidableEq

/-- Python `str(value)` on a scalar filter value. -/
def PyScalar.display : PyScalar → String
  | .s v => v
  | .n d => d

/-- The `FilterValue` union `Tuple[str, ...] | str | float | int`: the
`build_where_clause` type tests (`isinstance tuple` / `isinstance str` /
numeric fallthrough) see exactly these constructors. -/
inductive FilterValue where
  | scalar (v : PyScalar)
  | tuple (vs : List PyScalar)
deriving DecidableEq

/-- The definition of an aggregated metric. -/
structure MeasureSpec where
  column : String
  aggregation : String
  «alias» : String
deriving DecidableEq

/-- `MeasureSpec.label`: human-friendly legend text. -/
def MeasureSpec.label (m : MeasureSpec) : String :=
  pyTitle m.aggregation ++ " of " ++ m.column

/-- The visualization dict persisted by `set_visualization`
(`options` empty models the absent `"options"` key, `breakdowns` is always
present in the source dict). -/
structure VizSpec where
  chart_type : String
  x_fields : List String
  y_measures : List String
  breakdowns : List String
  options : List (String × String)
deriving DecidableEq

/-- The mutable state of an interactive session (`AgentState`);
`visualization = none` models the empty dict. -/
structure AgentState where
  dataset : Option Dataset
  filters : List (String × FilterValue)
  visualization : Option VizSpec
  dimensions : List String
  measure_specs : List MeasureSpec
deriving DecidableEq

/-- A fresh `AgentState()` with all default fields. -/
def initialAgentState : AgentState :=
  { dataset := none, filters := [], visualization := none,
    dimensions := [], measure_specs := [] }

/-- `AgentState.reset`: clear every field. -/
def AgentState.reset (_st : AgentState) : AgentState := initialAgentState

/-- The error taxonomy: each constructor is one distinct `raise` site of the
source.  `noDatasetSelected` is the `RuntimeError` of `_require_dataset`
(not caught by the chat handlers); the rest are `ValueError`s. -/
inductive AgentError where
  | noDatasetSelected
  | unknownDataset (name : String)
  | unknownColumn (column : String) (dataset : String)
  | emptyXFields
  | emptyYMeasures
  | unknownDimensions (columns : List String) (dataset : String)
  | unknownBreakdowns (columns : List String) (dataset : String)
  | invalidAggregation
deriving DecidableEq

/-- `str(exc)`: the message of each raise site. -/
def errorMessage : AgentError → String
  | .noDatasetSelected => "A dataset must be selected before performing this operation."
  | .unknownDataset n => "Unknown dataset '" ++ n ++ "'."
  | .unknownColumn c d =>
      "Column '" ++ c ++ "' is not available on dataset '" ++ d ++ "'."
  | .emptyXFields => "At least one dimension must be provided for the X axis."
  | .emptyYMeasures =>
      "Specify at least one measure for the Y axis (e.g. 'sum:monthly_spend')."
  | .unknownDimensions cs d =>
      "Unknown dimension columns: " ++ String.intercalate ", " cs ++
        " on dataset '" ++ d ++ "'."
  | .unknownBreakdowns cs d =>
      "Unknown breakdown columns: " ++ String.intercalate ", " cs ++
        " on dataset '" ++ d ++ "'."
  | .invalidAggregation =>
      "Aggregation must be one of 'sum', 'avg', 'count', 'min', or 'max'."

/-- Whether the error is the uncaught `RuntimeError` (the chat handlers
catch only `ValueError`). -/
def AgentError.isRuntime : AgentError → Bool
  | .noDatasetSelected => true
  | _ => false

/-- `get_dataset`: registry lookup, `ValueError` if absent. -/
def get_dataset (name : String) : Except AgentError Dataset :=
  match DATASETS.lookup name with
  | some ds => .ok ds
  | none => .error (.unknownDataset name)

/-- The column-name set of the active dataset used by the validators. -/
def columnNames (ds : Dataset) : List String := ds.columns.map (fun c => c.name)

/-! ## Session model operations (`DataAgent`) -/

/-- `select_dataset`: look up the dataset and reset all stateful fields. -/
def select_dataset (_st : AgentState) (dataset_name : String) :
    Except AgentError (AgentState × Dataset) :=
  match get_dataset dataset_name with
  | .error e => .error e
  | .ok ds =>
      .ok ({ dataset := some ds, filters := [], visualization := none,
             dimensions := [], measure_specs := [] }, ds)

/-- `add_filter`: validate the column against the active dataset, then
upsert into the filters dict. -/
def add_filter (st : AgentState) (column_name : String) (value : FilterValue) :
    Except AgentError AgentState :=
  match st.dataset with
  | none => .error .noDatasetSelected
  | some ds =>
      if column_name ∈ columnNames ds then
        .ok { st with filters := dictUpsert st.filters column_name value }
      else .error (.unknownColumn column_name ds.name)

/-- One conjunct of the WHERE clause: the per-value branch of
`build_where_clause` (tuple of length 2 → BETWEEN, other tuples → IN,
string → quoted equality, numeric → unquoted equality). -/
def whereConjunct (column : String) : FilterValue → String
  | .tuple [a, b] =>
      column ++ " BETWEEN '" ++ a.display ++ "' AND '" ++ b.display ++ "'"
  | .tuple vs =>
      column ++ " IN (" ++
        String.intercalate ", " (vs.map (fun v => "'" ++ v.display ++ "'")) ++ ")"
  | .scalar (.s v) => column ++ " = '" ++ v ++ "'"
  | .scalar (.n d) => column ++ " = " ++ d

/-- `build_where_clause`: empty for no filters, otherwise ` WHERE ` followed
by the conjuncts joined with ` AND ` in filter insertion order. -/
def build_where_clause (st : AgentState) : String :=
  if st.filters.isEmpty then ""
  else
    " WHERE " ++
      String.intercalate " AND " (st.filters.map (fun p => whereConjunct p.1 p.2))

/-- `build_sql_query`: the SQL statement reflecting the current state. -/
def build_sql_query (st : AgentState) (limit : Nat) : Except AgentError String :=
  match st.dataset with
  | none => .error .noDatasetSelected
  | some ds =>
      let where_clause := build_where_clause st
      if st.measure_specs.isEmpty then
        let order_clause :=
          match ds.default_order_by with
          | some ob => " ORDER BY " ++ ob
          | none => ""
        .ok ("SELECT * FROM " ++ ds.table ++ where_clause ++ order_clause ++
              " LIMIT " ++ pyNatRepr limit ++ ";")
      else
        let select_parts :=
          st.dimensions ++
            st.measure_specs.map
              (fun sp => sp.aggregation ++ "(" ++ sp.column ++ ") AS " ++ sp.«alias»)
        let select_clause :=
          if select_parts.isEmpty then "*" else String.intercalate ", " select_parts
        let group_clause :=
          if st.dimensions.isEmpty then ""
          else " GROUP BY " ++ String.intercalate ", " st.dimensions
        let order_clause :=
          if st.dimensions.isEmpty then ""
          else " ORDER BY " ++ String.intercalate ", " st.dimensions
        .ok ("SELECT " ++ select_clause ++ " FROM " ++ ds.table ++ where_clause ++
              group_clause ++ order_clause ++ " LIMIT " ++ pyNatRepr limit ++ ";")

/-- `suggest_filters`: role-driven filter prompts. -/
def suggest_filters (st : AgentState) : Except AgentError (List String) :=
  match st.dataset with
  | none => .error .noDatasetSelected
  | some ds =>
      .ok (ds.columns.filterMap (fun c =>
        if c.role == "temporal" then some ("Filter by " ++ c.name ++ " date range")
        else if c.role == "category" then some ("Filter by " ++ c.name ++ " category")
        else if c.role == "measure" then
          some ("Filter by " ++ c.name ++ " numeric range")
        else none))

/-- `suggest_enrichments`: related-dataset prompts. -/
def suggest_enrichments (st : AgentState) : Except AgentError (List String) :=
  match st.dataset with
  | none => .error .noDatasetSelected
  | some ds =>
      if ds.related.isEmpty then .ok []
      else .ok (ds.related.map (fun r => "Compare with " ++ r))

/-- The `while alias in existing_aliases` collision loop of
`set_visualization`, with explicit fuel; fuel `existing.length + 1` always
suffices (proved below), so the fuel-0 fallback is unreachable. -/
def freshAliasLoop (base : String) (existing : List String) :
    Nat → Nat → String
  | counter, 0 => base ++ "_" ++ pyNatRepr counter
  | counter, fuel + 1 =>
      let a := base ++ "_" ++ pyNatRepr counter
      if a ∈ existing then freshAliasLoop base existing (counter + 1) fuel else a

/-- Alias computation of `set_visualization`: the default alias
`{agg_lower}_{column}`, disambiguated with `_2`, `_3`, … on collision. -/
def pyFreshAlias (base : String) (existing : List String) : String :=
  if base ∈ existing then freshAliasLoop base existing 2 (existing.length + 1)
  else base

/-- `raw.split(":", 1)` with stripping, defaulting the aggregation to
`sum` when no colon is present. -/
def splitMeasureToken (raw : String) : String × String :=
  if strContainsChar raw ':' then
    let p := splitOnceChar ':' raw
    (pyStrip p.1, pyStrip p.2)
  else ("sum", pyStrip raw)

/-- The allowed aggregation keywords. -/
def allowedAggs : List String := ["sum", "avg", "count", "min", "max"]

/-- Validation and construction of one `MeasureSpec` from a y-measure token,
given the aliases already taken. -/
def measureOf (allowed : List String) (dsName : String) (existing : List String)
    (raw : String) : Except AgentError MeasureSpec :=
  let p := splitMeasureToken raw
  let agg := p.1
  let column := p.2
  if column ∈ allowed then
    let agg_lower := pyLower agg
    if agg_lower ∈ allowedAggs then
      let alias_base := agg_lower ++ "_" ++ column
      .ok ⟨column, pyUpper agg_lower, pyFreshAlias alias_base existing⟩
    else .error .invalidAggregation
  else .error (.unknownColumn column dsName)

/-- The `for raw in y_measures` loop: specs accumulate left to right and the
existing-alias set is exactly the aliases of the specs built so far. -/
def buildMeasureSpecs (allowed : List String) (dsName : String)
    (acc : List MeasureSpec) : List String → Except AgentError (List MeasureSpec)
  | [] => .ok acc
  | raw :: rest =>
      match measureOf allowed dsName (acc.map (fun m => m.«alias»)) raw with
      | .error e => .error e
      | .ok m => buildMeasureSpecs allowed dsName (acc ++ [m]) rest

/-- `set_visualization`: validate, build measure specs, recompute the
dimensions as the dedup of `x_fields ++ breakdowns`, and replace the
visualization state. -/
def set_visualization (st : AgentState) (chart_type : String)
    (x_fields y_measures breakdowns : List String)
    (options : List (String × String)) :
    Except AgentError (AgentState × VizSpec) :=
  match st.dataset with
  | none => .error .noDatasetSelected
  | some ds =>
      let allowed := columnNames ds
      if x_fields.isEmpty then .error .emptyXFields
      else if y_measures.isEmpty then .error .emptyYMeasures
      else
        let invalid_dims := x_fields.filter (fun c => decide (c ∉ allowed))
        if invalid_dims.isEmpty then
          let invalid_breakdowns := breakdowns.filter (fun c => decide (c ∉ allowed))
          if invalid_breakdowns.isEmpty then
            match buildMeasureSpecs allowed ds.name [] y_measures with
            | .error e => .error e
            | .ok specs =>
                let merged := pyDedup (x_fields ++ breakdowns)
                let viz : VizSpec :=
                  ⟨chart_type, x_fields, specs.map (fun m => m.«alias»),
                    breakdowns, options⟩
                let st' : AgentState :=
                  { st with visualization := some viz, dimensions := merged,
                            measure_specs := specs }
                .ok (st', viz)
          else .error (.unknownBreakdowns invalid_breakdowns ds.name)
        else .error (.unknownDimensions invalid_dims ds.name)

/-- `describe_state`: the JSON-serialisable session snapshot. -/
structure StateDescription where
  dataset : String
  filters : List (String × FilterValue)
  visualization : Option VizSpec
  dimensions : List String
  metrics : List MeasureSpec
  sql : String
deriving DecidableEq

/-- `describe_state`: requires a dataset, then snapshots every field and the
compiled SQL (default limit 100). -/
def describe_state (st : AgentState) : Except AgentError StateDescription :=
  match st.dataset with
  | none => .error .noDatasetSelected
  | some ds =>
      match build_sql_query st 100 with
      | .error e => .error e
      | .ok sql =>
          .ok ⟨ds.name, st.filters, st.visualization, st.dimensions,
                st.measure_specs, sql⟩

/-! ## Filter expression scanner (`ChatSession._parse_filter`)

The regex
`(?P<column>[a-zA-Z_][\w]*)\s+between\s+(?P<start>[^\s]+)\s+and\s+(?P<end>[^\s]+)`
(with `re.IGNORECASE`) is embedded as a deterministic greedy scan: at every
boundary of the pattern the adjacent character classes are disjoint
(`\w` vs `\s`, `\s` vs a non-space literal, `[^\s]` vs `\s`), so Python's
backtracking engine never needs to backtrack and leftmost-greedy scanning is
an exact model.  `\w`/`\s` are modelled over the ASCII vocabulary the
program uses. -/

/-- Case-insensitively consume the (lower-case) literal `lit` from the front
of `cs`, returning the remaining characters. -/
def matchCI : List Char → List Char → Option (List Char)
  | [], rest => some rest
  | _ :: _, [] => none
  | l :: ls, c :: cs => if c.toLower == l then matchCI ls cs else none

/-- Attempt the `between` pattern anchored at the head of `cs`, returning
captured `(column, start, end)`. -/
def tryBetweenAt (cs : List Char) : Option (String × String × String) :=
  match cs with
  | [] => none
  | c :: _ =>
    if isIdentStartChar c then
      let p1 := cs.span isWordChar
      let p2 := p1.2.span Char.isWhitespace
      if p2.1.isEmpty then none
      else
        match matchCI "between".toList p2.2 with
        | none => none
        | some r3 =>
          let p4 := r3.span Char.isWhitespace
          if p4.1.isEmpty then none
          else
            let p5 := p4.2.span (fun d => !d.isWhitespace)
            if p5.1.isEmpty then none
            else
              let p6 := p5.2.span Char.isWhitespace
              if p6.1.isEmpty then none
              else
                match matchCI "and".toList p6.2 with
                | none => none
                | some r7 =>
                  let p8 := r7.span Char.isWhitespace
                  if p8.1.isEmpty then none
                  else
                    let p9 := p8.2.span (fun d => !d.isWhitespace)
                    if p9.1.isEmpty then none
                    else some (⟨p1.1⟩, ⟨p5.1⟩, ⟨p9.1⟩)
    else none

/-- `re.search` for the `between` pattern: try every start position from the
left, first success wins. -/
def betweenSearch : List Char → Option (String × String × String)
  | [] => none
  | c :: cs =>
    match tryBetweenAt (c :: cs) with
    | some r => some r
    | none => betweenSearch cs

/-- Python `str(int)` display for a signed integer. -/
def pyIntDisplay (i : Int) : String :=
  if i < 0 then "-" ++ pyNatRepr i.natAbs else pyNatRepr i.toNat

/-- A canonical simple float literal `-?[0-9]+\.[0-9]+`, for which Python's
`str(float(lit))` round-trips to the literal itself.  `float()` accepts a
few more exotic forms (exponents, leading/trailing dots); those are modelled
as unparsed and left as strings, which no behaviour verified here depends
on. -/
def isSimpleFloatLit (s : String) : Bool :=
  let cs := match s.toList with
    | '-' :: rest => rest
    | cs => cs
  let p := cs.span Char.isDigit
  match p.2 with
  | '.' :: frac => !p.1.isEmpty && !frac.isEmpty && frac.all Char.isDigit
  | _ => false

/-- `ChatSession._cast_value` on one scalar: numeric coercion only when the
resolved column's type is `numeric` and the literal parses (int without a
dot, float with one). -/
def castScalar (dataset : Dataset) (column_name : String) (raw : String) :
    PyScalar :=
  match dataset.columns.find? (fun c => c.name == column_name) with
  | none => .s raw
  | some col =>
    if col.type == "numeric" then
      if strContainsChar raw '.' then
        if isSimpleFloatLit raw then .n raw else .s raw
      else
        match pyIntParse? raw with
        | some i => .n (pyIntDisplay i)
        | none => .s raw
    else .s raw

/-- The `column=value[,value...]` / `column:value[,value...]` arm of
`_parse_filter`, after splitting on the first separator occurrence. -/
def parseFilterKV (dataset : Dataset) (column raw_value : String) :
    Option (String × FilterValue) :=
  let values := ((pySplitOnChar ',' raw_value).map pyStrip).filter
    (fun v => !v.isEmpty)
  match values with
  | [] => none
  | [v] => some (column, .scalar (castScalar dataset column v))
  | vs => some (column, .tuple (vs.map (fun v => castScalar dataset column v)))

/-- `_parse_filter`: `between` search first, then `=` split, then `:` split;
`none` means "not a filter" (no parse). -/
def parse_filter (dataset? : Option Dataset) (text : String) :
    Option (String × FilterValue) :=
  match dataset? with
  | none => none
  | some dataset =>
    match betweenSearch text.toList with
    | some (column, s, e) =>
        some (column,
          .tuple [castScalar dataset column s, castScalar dataset column e])
    | none =>
      if strContainsChar text '=' then
        let p := splitOnceChar '=' text
        parseFilterKV dataset (pyStrip p.1) (pyStrip p.2)
      else if strContainsChar text ':' then
        let p := splitOnceChar ':' text
        parseFilterKV dataset (pyStrip p.1) (pyStrip p.2)
      else none

/-! ## Visualization directive scanner (`ChatSession._parse_visualisation`)

`re.findall(r"([a-z_]+)\s*=\s*([^\s]+)", text.lower())`: non-overlapping
leftmost matches; again all class boundaries are disjoint so a greedy scan
is exact. -/

/-- The key class `[a-z_]` (the input is already lower-cased). -/
def isKeyChar (c : Char) : Bool := c.isLower || c == '_'

/-- Attempt one `key=value` token anchored at the head, returning the
captures and the unconsumed rest. -/
def tryPairAt (cs : List Char) : Option (String × String × List Char) :=
  match cs with
  | [] => none
  | c :: _ =>
    if isKeyChar c then
      let p1 := cs.span isKeyChar
      let p2 := p1.2.span Char.isWhitespace
      match p2.2 with
      | '=' :: r3 =>
        let p4 := r3.span Char.isWhitespace
        let p5 := p4.2.span (fun d => !d.isWhitespace)
        if p5.1.isEmpty then none
        else some (⟨p1.1⟩, ⟨p5.1⟩, p5.2)
      | _ => none
    else none

/-- Fuelled `findall` scan: on a match continue after it, otherwise advance
one character.  Fuel = input length always suffices (every match consumes at
least one character). -/
def vizTokensAux : Nat → List Char → List (String × String)
  | 0, _ => []
  | _, [] => []
  | fuel + 1, c :: cs =>
    match tryPairAt (c :: cs) with
    | some (k, v, rest) => (k, v) :: vizTokensAux fuel rest
    | none => vizTokensAux fuel cs

/-- All `key=value` tokens of the lower-cased input, left to right. -/
def vizTokens (s : String) : List (String × String) :=
  vizTokensAux s.length s.toList

/-- The dict comprehension `{key: value for key, value in parts}`: a left
fold of upserts, so a repeated key keeps the value of its last occurrence. -/
def vizParams (ps : List (String × String)) : List (String × String) :=
  ps.foldl (fun acc p => dictUpsert acc p.1 p.2) []

/-- Python `a or b` on the two `.get` results (values are never empty, so
only `None` is falsy). -/
def pyOrOpt (a b : Option String) : Option String :=
  match a with
  | some v => some v
  | none => b

/-- The chart-type vocabulary. -/
def chartTypes : List String := ["bar", "line", "pie", "heatmap", "custom"]

/-- The reserved keys; anything else is passed through as an option. -/
def recognisedKeys : List String :=
  ["chart", "type", "x", "dimensions", "y", "metrics", "breakdowns", "group_by"]

/-- Comma-split into ordered, trimmed, non-empty fields. -/
def commaSplit (v : String) : List String :=
  ((pySplitOnChar ',' v).map pyStrip).filter (fun s => !s.isEmpty)

/-- The directive payload handed to `set_visualization(**parsed)`;
`breakdowns = []` models the absent key (the source then defaults
`breakdowns or []`), `options = []` the absent `options` key. -/
structure VizPayload where
  chart_type : String
  x_fields : List String
  y_measures : List String
  breakdowns : List String
  options : List (String × String)
deriving DecidableEq

/-- `_parse_visualisation`: tokenize, build the parameter dict, apply the
synonym precedence (`chart` before `type`, `x` before `dimensions`, `y`
before `metrics`, `breakdowns` before `group_by`), validate the chart type,
and collect passthrough options. -/
def parse_visualisation (text : String) : Option VizPayload :=
  let parts := vizTokens (pyLower text)
  if parts.isEmpty then none
  else
    let parameters := vizParams parts
    match pyOrOpt (parameters.lookup "chart") (parameters.lookup "type") with
    | none => none
    | some chart_type =>
      match pyOrOpt (parameters.lookup "x") (parameters.lookup "dimensions") with
      | none => none
      | some x_value =>
        match pyOrOpt (parameters.lookup "y") (parameters.lookup "metrics") with
        | none => none
        | some y_value =>
          if chart_type ∈ chartTypes then
            let x_fields := commaSplit x_value
            let y_measures := commaSplit y_value
            let breakdowns :=
              match pyOrOpt (parameters.lookup "breakdowns")
                  (parameters.lookup "group_by") with
              | some bv => commaSplit bv
              | none => []
            let options := parameters.filter
              (fun p => decide (p.1 ∉ recognisedKeys))
            some ⟨chart_type, x_fields, y_measures, breakdowns, options⟩
          else none

/-! ## Dialogue state machine (`ChatSession`)

The query-execution backend (`database.execute_query`) and the chart
renderer (`visualization.render_chart`) are external collaborators; they are
modelled as total oracle functions.  A row is an insertion-ordered mapping
from column name to the `str()` display of its value.  A result of
`.error e` models a Python exception escaping `handle_input` (only the
`RuntimeError` of `_require_dataset` can); `.ok` models a completed turn. -/

/-- The conversation stages. -/
inductive Stage where
  | greeting
  | dataset
  | filters
  | visualisation
  | summary
  | adjust
deriving DecidableEq

/-- `ConversationContext`: the agent state, the stage, and the last chart
artifact path. -/
structure ConversationContext where
  agent : AgentState
  stage : Stage
  chart_path : Option String
deriving DecidableEq

/-- A fresh `ConversationContext()`. -/
def initialContext : ConversationContext :=
  ⟨initialAgentState, .greeting, none⟩

/-- One measure entry of the payload handed to `render_chart`. -/
structure RenderMeasure where
  «alias» : String
  label : String
  column : String
  aggregation : String
deriving DecidableEq

/-- The full `render_chart` invocation payload. -/
structure RenderRequest where
  rows : List (List (String × String))
  chart_type : String
  x_fields : List String
  breakdowns : List String
  measures : List RenderMeasure
deriving DecidableEq

/-- Renderer outcomes: a saved artifact path, `None` (nothing to render), or
a raised exception with its message (caught at the summary boundary). -/
inductive RenderResult where
  | path (p : String)
  | noChart
  | failure (msg : String)
deriving DecidableEq

/-- The external collaborators as total functions. -/
structure Oracle where
  execute_query : String → List (List (String × String))
  render_chart : RenderRequest → RenderResult

/-- The greeting text of `ChatSession.start`. -/
def startText : String :=
  "👋 Hi! I can help you explore your metrics.\n" ++
  "Pick a dataset to begin (type the name):\n" ++
  "→ " ++ String.intercalate ", " list_datasets ++ "\n" ++
  "Type 'help' for guidance or 'quit' to exit."

/-- `ChatSession.start`: move to the DATASET stage and greet. -/
def startSession (ctx : ConversationContext) : ConversationContext × String :=
  ({ ctx with stage := .dataset }, startText)

/-- `_help_message`. -/
def helpText : String :=
  "Workflow overview:\n" ++
  "1. Pick a dataset by typing its name.\n" ++
  "2. Add filters using `column=value` or `column between start and end`.\n" ++
  "3. Type 'done' to design a chart with commands like `chart=bar x=region,plan_type" ++
  " y=sum:monthly_spend`.\n" ++
  "4. Review the summary, open the generated chart image, and tweak using `chart=...`," ++
  " `filter ...`, or `refresh`.\n" ++
  "Commands: 'help', 'reset', 'restart', 'quit'."

/-- The word class of `re.split(r"[^a-z0-9_]+", text.lower())`: the runs of
word characters (the split's empty boundary strings never match a dataset
name and are dropped). -/
def isLowerWordChar (c : Char) : Bool := c.isLower || c.isDigit || c == '_'

/-- The word runs of the lower-cased text, left to right (fuelled scan). -/
def wordRunsAux : Nat → List Char → List String
  | 0, _ => []
  | _, [] => []
  | fuel + 1, c :: cs =>
    if isLowerWordChar c then
      let p := (c :: cs).span isLowerWordChar
      (⟨p.1⟩ : String) :: wordRunsAux fuel p.2
    else wordRunsAux fuel cs

/-- `_match_dataset`: the first whole word that is a registry name, else the
whole lower-cased text if it is one (registry names are already lower-case,
so the `options` dict is the identity on them). -/
def match_dataset (text : String) : Option String :=
  let lowered := pyLower text
  match (wordRunsAux lowered.length lowered.toList).find?
      (fun w => decide (w ∈ list_datasets)) with
  | some w => some w
  | none => if lowered ∈ list_datasets then some lowered else none

/-- Python `repr` of a string value inside a container display (quote
escaping for exotic values elided; the program's vocabulary never needs
it). -/
def pyReprStr (s : String) : String := "'" ++ s ++ "'"

/-- Python `repr` of a scalar inside a tuple display. -/
def scalarRepr : PyScalar → String
  | .s v => "'" ++ v ++ "'"
  | .n d => d

/-- Python `str()` of a `FilterValue` as interpolated into responses
(a bare scalar prints raw, a tuple prints its `repr`). -/
def filterValueDisplay : FilterValue → String
  | .scalar v => v.display
  | .tuple [v] => "(" ++ scalarRepr v ++ ",)"
  | .tuple vs => "(" ++ String.intercalate ", " (vs.map scalarRepr) ++ ")"

/-- The `• key: value` filter listing used by several responses. -/
def filterLines (filters : List (String × FilterValue)) : String :=
  String.intercalate "\n"
    (filters.map (fun p => "• " ++ p.1 ++ ": " ++ filterValueDisplay p.2))

/-- `_handle_dataset_selection`. -/
def handle_dataset_selection (ctx : ConversationContext) (text : String) :
    Except AgentError (ConversationContext × String) :=
  match match_dataset text with
  | none =>
      .ok (ctx, "I couldn't find that dataset.\nAvailable options: " ++
        String.intercalate ", " list_datasets ++
        ".\nPlease type one of the dataset names.")
  | some name => do
      let (st, ds) ← select_dataset ctx.agent name
      let suggestions ← suggest_filters st
      let enrichment ← suggest_enrichments st
      let suggestion_text :=
        if suggestions.isEmpty then "• No predefined filters"
        else String.intercalate "\n" (suggestions.map (fun i => "• " ++ i))
      let enrichment_text :=
        if enrichment.isEmpty then ""
        else "\nRelated datasets you can mention later: " ++
          String.intercalate ", " enrichment
      .ok ({ ctx with agent := st, stage := .filters },
        "Great! We'll explore **" ++ ds.name ++ "**.\n" ++
        "You can add filters in the form `column=value` or `column between start and end`.\n" ++
        "Type 'done' when you're ready to move on.\n" ++
        "Suggested filters:\n" ++ suggestion_text ++ enrichment_text)

/-- `_visualisation_prompt`. -/
def visualisationPrompt (st : AgentState) : String :=
  let columns := match st.dataset with
    | some ds => String.intercalate ", " (columnNames ds)
    | none => ""
  "Great, let's design a chart.\n" ++
  "Available columns: " ++ columns ++ ".\n" ++
  "Try something like `chart=bar x=region,plan_type y=sum:monthly_spend,avg:login_count" ++
  " breakdowns=status`.\n" ++
  "You can also set options such as `style=stacked`."

/-- The no-parse usage hint of `_handle_filtering`. -/
def filterHint : String :=
  "I didn't understand that filter.\n" ++
  "Use `column=value`, `column=value1,value2`, or `column between start and end`.\n" ++
  "Type 'done' when finished."

/-- `_handle_filtering`: `done`-family advances the stage, a parsed filter
is validated and recorded, a no-parse returns the usage hint. -/
def handle_filtering (ctx : ConversationContext) (text : String) :
    Except AgentError (ConversationContext × String) :=
  let lowered := pyLower text
  if lowered ∈ (["done", "next", "visual"] : List String) then
    .ok ({ ctx with stage := .visualisation }, visualisationPrompt ctx.agent)
  else
    match parse_filter ctx.agent.dataset text with
    | none => .ok (ctx, filterHint)
    | some (column, value) =>
        match add_filter ctx.agent column value with
        | .error e =>
            if e.isRuntime then .error e else .ok (ctx, errorMessage e)
        | .ok st =>
            let fl := filterLines st.filters
            let fl := if fl.isEmpty then "• (none)" else fl
            .ok ({ ctx with agent := st },
              "Added filter on **" ++ column ++ "**. Current filters:\n" ++ fl ++
              "\nAdd another filter or type 'done' to continue.")

/-- The maximum of a list of naturals (used by the column widths). -/
def maxNat (l : List Nat) : Nat := l.foldl max 0

/-- `row[column]` display; the rows contract guarantees the key is present
(an absent key, which would raise in Python, displays as empty here — no
verified behaviour depends on malformed oracle rows). -/
def rowGet (row : List (String × String)) (c : String) : String :=
  (row.lookup c).getD ""

/-- `str.ljust`. -/
def padTo (s : String) (w : Nat) : String := s.pushn ' ' (w - s.length)

/-- `_format_preview` with `max_rows = 5`. -/
def formatPreview (rows : List (List (String × String))) : String :=
  if rows.isEmpty then "(no results)"
  else
    let truncated := rows.take 5
    let columns : List String := match truncated with
      | r :: _ => r.map (fun p => p.1)
      | [] => []
    let widthOf := fun (c : String) =>
      max c.length (maxNat (truncated.map (fun row => (rowGet row c).length)))
    let header :=
      String.intercalate " | " (columns.map (fun c => padTo c (widthOf c)))
    let separator :=
      String.intercalate "-+-"
        (columns.map (fun c => ("" : String).pushn '-' (widthOf c)))
    let body := truncated.map (fun row =>
      String.intercalate " | "
        (columns.map (fun c => padTo (rowGet row c) (widthOf c))))
    let lines := header :: separator :: body
    let lines :=
      if rows.length > 5 then
        lines ++ ["… (" ++ pyNatRepr (rows.length - 5) ++ " more rows)"]
      else lines
    String.intercalate "\n" lines

/-- Python `repr` of a list of strings. -/
def pyListRepr (l : List String) : String :=
  "[" ++ String.intercalate ", " (l.map pyReprStr) ++ "]"

/-- Python `repr` of a string-to-string dict. -/
def pyStrDictRepr (m : List (String × String)) : String :=
  "\x7b" ++
    String.intercalate ", "
      (m.map (fun p => pyReprStr p.1 ++ ": " ++ pyReprStr p.2)) ++
  "\x7d"

/-- The f-string display of the visualization dict (`{}` when unset). -/
def vizDictRepr : Option VizSpec → String
  | none => "\x7b\x7d"
  | some v =>
      "\x7b'chart_type': " ++ pyReprStr v.chart_type ++
      ", 'x_fields': " ++ pyListRepr v.x_fields ++
      ", 'y_measures': " ++ pyListRepr v.y_measures ++
      ", 'breakdowns': " ++ pyListRepr v.breakdowns ++
      (if v.options.isEmpty then ""
       else ", 'options': " ++ pyStrDictRepr v.options) ++
      "\x7d"

/-- `_summarise_results`: snapshot the state, run the query, format the
preview, attempt rendering, store or clear the artifact path, move to
ADJUST, and compose the summary. -/
def summarise_results (o : Oracle) (ctx : ConversationContext) :
    Except AgentError (ConversationContext × String) := do
  let summary ← describe_state ctx.agent
  let sql := summary.sql
  let rows := o.execute_query sql
  let preview := formatPreview rows
  let metrics_text :=
    if summary.metrics.isEmpty then "(none)"
    else String.intercalate ", "
      (summary.metrics.map (fun m =>
        m.aggregation ++ "(" ++ m.column ++ ") → " ++ m.«alias»))
  let dimensions_text :=
    if summary.dimensions.isEmpty then "(none)"
    else String.intercalate ", " summary.dimensions
  let filter_lines :=
    if summary.filters.isEmpty then "• (none)" else filterLines summary.filters
  let vizChart := match summary.visualization with
    | some v => v.chart_type
    | none => "bar"
  let vizX := match summary.visualization with
    | some v => v.x_fields
    | none => []
  let vizB := match summary.visualization with
    | some v => v.breakdowns
    | none => []
  let measures := ctx.agent.measure_specs.map (fun sp =>
    RenderMeasure.mk sp.«alias» sp.label sp.column sp.aggregation)
  let renderResult := o.render_chart ⟨rows, vizChart, vizX, vizB, measures⟩
  let pr : Option String × String := match renderResult with
    | .failure msg => (none, "⚠️ Unable to render chart: " ++ msg)
    | .path p => (some p, "Chart saved to: " ++ p)
    | .noChart => (none, "No chart generated (no result rows or metrics).")
  let ctx' := { ctx with chart_path := pr.1, stage := .adjust }
  .ok (ctx',
    "Here's the summary of your exploration:\n" ++
    "Dataset: " ++ summary.dataset ++ "\n" ++
    "Filters:\n" ++ filter_lines ++ "\n" ++
    "Dimensions: " ++ dimensions_text ++ "\n" ++
    "Metrics: " ++ metrics_text ++ "\n" ++
    "Visualization: " ++ vizDictRepr summary.visualization ++ "\n" ++
    "SQL: " ++ sql ++ "\n\n" ++
    "Top rows:\n" ++ preview ++ "\n\n" ++
    pr.2 ++ "\n" ++
    "Type commands like `chart=...` to adjust, `filter column=value` to refine," ++
    " `refresh` to re-run, or 'restart' to start over.")

/-- The no-parse usage hint of `_handle_visualisation`. -/
def vizHint : String :=
  "Let's describe the chart. Use `chart=bar x=region,plan_type y=sum:monthly_spend,avg:login_count" ++
  " breakdowns=status`.\n" ++
  "Available chart types: bar, line, pie, heatmap, custom."

/-- `_handle_visualisation`: a no-parse returns the hint with no state
change; a validation error is surfaced with no state change; on success the
stage passes through SUMMARY into the summary step. -/
def handle_visualisation (o : Oracle) (ctx : ConversationContext)
    (text : String) : Except AgentError (ConversationContext × String) :=
  match parse_visualisation text with
  | none => .ok (ctx, vizHint)
  | some payload =>
      match set_visualization ctx.agent payload.chart_type payload.x_fields
          payload.y_measures payload.breakdowns payload.options with
      | .error e =>
          if e.isRuntime then .error e else .ok (ctx, errorMessage e)
      | .ok (st, _spec) =>
          summarise_results o { ctx with agent := st, stage := .summary }

/-- The tokens that route ADJUST input to the visualization handler. -/
def adjustTokens : List String :=
  ["chart=", "x=", "y=", "metrics=", "dimensions=", "breakdowns="]

/-- The fallback help of `_handle_adjustment`. -/
def adjustHint : String :=
  "You can tweak the chart with commands like `chart=bar x=region y=sum:monthly_spend`.\n" ++
  "Use `filter column=value` to refine data, `refresh` to regenerate," ++
  " or 'restart' to begin again."

/-- The no-parse hint for `filter …` tweaks in ADJUST. -/
def filterTweakHint : String :=
  "I couldn't understand that filter tweak. Use `filter column=value` or" ++
  " `filter column between start and end`."

/-- `_handle_adjustment`. -/
def handle_adjustment (o : Oracle) (ctx : ConversationContext) (text : String) :
    Except AgentError (ConversationContext × String) :=
  let lowered := pyLower text
  if lowered ∈ (["again", "restart", "reset", "new"] : List String) then
    .ok (startSession initialContext)
  else if lowered ∈ (["refresh", "show", "show chart", "render", "update"] : List String) then
    summarise_results o ctx
  else if adjustTokens.any (fun t => strHasSub lowered t) then
    handle_visualisation o { ctx with stage := .visualisation } text
  else if strStartsWith lowered "filter " then
    let filter_text := (splitOnceChar ' ' text).2
    match parse_filter ctx.agent.dataset filter_text with
    | none => .ok (ctx, filterTweakHint)
    | some (column, value) =>
        match add_filter ctx.agent column value with
        | .error e =>
            if e.isRuntime then .error e else .ok (ctx, errorMessage e)
        | .ok st =>
            match summarise_results o { ctx with agent := st } with
            | .error e => .error e
            | .ok (ctx', resp) =>
                .ok (ctx', "Added filter on **" ++ column ++
                  "**. Regenerating summary…\n" ++ resp)
  else if lowered == "filters" then
    let fl :=
      if ctx.agent.filters.isEmpty then "• (none)"
      else filterLines ctx.agent.filters
    .ok (ctx, "Current filters:\n" ++ fl ++
      "\nType `filter column=value` to add more or `restart` to reset.")
  else if lowered == "chart" then
    match ctx.chart_path with
    | none => .ok (ctx, "No chart has been generated yet. Try `refresh` first.")
    | some p => .ok (ctx, "The latest chart is saved at: " ++ p)
  else
    .ok (ctx, adjustHint)

/-- `_handle_summary_follow_up`: the reset commands, otherwise exactly the
ADJUST logic. -/
def handle_summary_follow_up (o : Oracle) (ctx : ConversationContext)
    (text : String) : Except AgentError (ConversationContext × String) :=
  let lowered := pyLower text
  if lowered ∈ (["again", "restart", "reset", "new"] : List String) then
    .ok (startSession initialContext)
  else handle_adjustment o ctx text

/-- `handle_input`: strip, empty-input prompt, global commands, then stage
dispatch. -/
def handle_input (o : Oracle) (ctx : ConversationContext) (message : String) :
    Except AgentError (ConversationContext × String) :=
  let text := pyStrip message
  if text.isEmpty then .ok (ctx, "I didn't catch that. Please type something.")
  else
    let lowered := pyLower text
    if lowered ∈ (["quit", "exit"] : List String) then .ok (ctx, "Goodbye!")
    else if lowered ∈ (["help", "?"] : List String) then .ok (ctx, helpText)
    else if lowered ∈ (["reset", "restart"] : List String) then
      .ok (startSession initialContext)
    else
      match ctx.stage with
      | .dataset => handle_dataset_selection ctx text
      | .filters => handle_filtering ctx text
      | .visualisation => handle_visualisation o ctx text
      | .summary => handle_summary_follow_up o ctx text
      | .adjust => handle_adjustment o ctx text
      | .greeting => .ok (ctx, "Let's begin by choosing a dataset.")

/-- The contexts a session can ever be in: the fresh context, the started
context, and everything reachable through completed turns (with arbitrary
collaborator behaviour). -/
inductive Reachable : ConversationContext → Prop
  | init : Reachable initialContext
  | started (ctx : ConversationContext) :
      Reachable ctx → Reachable (startSession ctx).1
  | step (o : Oracle) (ctx ctx' : ConversationContext) (msg resp : String) :
      Reachable ctx → handle_input o ctx msg = .ok (ctx', resp) →
      Reachable ctx'

/-! ## Invariants and concrete instances -/

/-- The filters invariant of the data model: keys are unique and, whenever a
dataset is active, every key is one of its column names. -/
def FiltersWellFormed (st : AgentState) : Prop :=
  (st.filters.map (fun p => p.1)).Nodup ∧
  ∀ ds, st.dataset = some ds →
    ∀ k ∈ st.filters.map (fun p => p.1), k ∈ columnNames ds

/-- A collaborator instance for evaluating concrete turns: no rows, nothing
rendered. -/
def trivialOracle : Oracle := ⟨fun _ => [], fun _ => .noChart⟩

/-- The session state of the query-compilation determinism example: dataset
`subscribers`, the two filters in insertion order, dimensions
`[region, plan_type]` and the single `SUM(monthly_spend)` measure. -/
def c2State : AgentState :=
  { dataset := DATASETS.lookup "subscribers",
    filters := [("join_date", .tuple [.s "2025-10-01", .s "2025-11-01"]),
                ("region", .scalar (.s "India"))],
    visualization := none,
    dimensions := ["region", "plan_type"],
    measure_specs := [⟨"monthly_spend", "SUM", "sum_monthly_spend"⟩] }

/-- A subscribers session directly after `select_dataset`. -/
def subscribersFreshState : AgentState :=
  { dataset := DATASETS.lookup "subscribers", filters := [],
    visualization := none, dimensions := [], measure_specs := [] }

/-- A post-summary context in the ADJUST stage (subscribers, one filter, a
bar chart over region). -/
def adjustExampleContext : ConversationContext :=
  { agent :=
      { dataset := DATASETS.lookup "subscribers",
        filters := [("region", .scalar (.s "India"))],
        visualization := some ⟨"bar", ["region"], ["sum_monthly_spend"], [], []⟩,
        dimensions := ["region"],
        measure_specs := [⟨"monthly_spend", "SUM", "sum_monthly_spend"⟩] },
    stage := .adjust,
    chart_path := none }

/-- The subscribers dataset record itself (the registry value). -/
def subscribersDS : Dataset :=
  (DATASETS.lookup "subscribers").getD ⟨"", "", [], [], none⟩

/-- A session whose only filter is a two-valued Set (comma list), the shape
`region=India,US` parses to. -/
def c1SetState : AgentState :=
  { dataset := DATASETS.lookup "subscribers",
    filters := [("region", .tuple [.s "India", .s "US"])],
    visualization := none, dimensions := [], measure_specs := [] }

/-- Modelled from the spec's WHERE-clause wording, amended only where the
counterexample forces it: a tuple of exactly two scalars compiles to
`BETWEEN` (`Range` and two-element `Set` share this representation), any
other tuple to `IN`, a string scalar to a quoted equality and a numeric
scalar to an unquoted one. -/
def specWhereConjunct (column : String) : FilterValue → String
  | .tuple vs =>
      if h : vs.length = 2 then
        column ++ " BETWEEN '" ++ (vs.get ⟨0, by omega⟩).display ++ "' AND '" ++
          (vs.get ⟨1, by omega⟩).display ++ "'"
      else
        column ++ " IN (" ++
          String.intercalate ", " (vs.map (fun v => "'" ++ v.display ++ "'")) ++ ")"
  | .scalar (.s v) => column ++ " = '" ++ v ++ "'"
  | .scalar (.n d) => column ++ " = " ++ d

/-- Modelled from the spec: the full WHERE clause — empty without filters,
otherwise one conjunct per filter in insertion order, joined with `AND`. -/
def specWhereClause (filters : List (String × FilterValue)) : String :=
  if filters = [] then ""
  else
    " WHERE " ++
      String.intercalate " AND "
        (filters.map (fun p => specWhereConjunct p.1 p.2))

/-- The state produced by the alias-collision example
`y=sum:monthly_spend,sum:monthly_spend` on a fresh subscribers session. -/
def c3ResultState : AgentState :=
  { dataset := DATASETS.lookup "subscribers", filters := [],
    visualization :=
      some ⟨"bar", ["region"], ["sum_monthly_spend", "sum_monthly_spend_2"],
            [], []⟩,
    dimensions := ["region"],
    measure_specs := [⟨"monthly_spend", "SUM", "sum_monthly_spend"⟩,
                      ⟨"monthly_spend", "SUM", "sum_monthly_spend_2"⟩] }

/-- The state produced by the dimension-dedup example
`x=region,plan_type breakdowns=region` on a fresh subscribers session. -/
def c4ResultState : AgentState :=
  { dataset := DATASETS.lookup "subscribers", filters := [],
    visualization :=
      some ⟨"bar", ["region", "plan_type"], ["sum_monthly_spend"],
            ["region"], []⟩,
    dimensions := ["region", "plan_type"],
    measure_specs := [⟨"monthly_spend", "SUM", "sum_monthly_spend"⟩] }

end Viz

deriving instance DecidableEq for Except

namespace Viz

/-! ## Lemmas: decimal rendering and alias freshness -/

theorem decDigits_fuel (n : Nat) : ∀ f f' : Nat, n < f → n < f' →
    decDigits f n = decDigits f' n := by
  induction n using Nat.strong_induction_on with
  | _ n ih =>
    intro f f' hf hf'
    cases f with
    | zero => omega
    | succ f =>
      cases f' with
      | zero => omega
      | succ f' =>
        simp only [decDigits]
        by_cases h10 : n < 10
        · simp [h10]
        · have hn0 : 0 < n := by omega
          have hdiv : n / 10 < n := Nat.div_lt_self hn0 (by omega)
          simp only [if_neg h10]
          rw [ih (n / 10) hdiv f f' (by omega) (by omega)]

theorem decDigits_ne_nil (f n : Nat) (hf : 0 < f) : decDigits f n ≠ [] := by
  cases f with
  | zero => omega
  | succ f =>
    simp only [decDigits]
    by_cases h : n < 10
    · simp [h]
    · simp [h]

theorem digitChar_inj_lt :
    ∀ m, m < 10 → ∀ n, n < 10 → Nat.digitChar m = Nat.digitChar n → m = n := by
  decide

theorem decDigits_inj :
    ∀ n m, decDigits (n + 1) n = decDigits (m + 1) m → n = m := by
  intro n
  induction n using Nat.strong_induction_on with
  | _ n ih =>
    intro m h
    by_cases hn : n < 10 <;> by_cases hm : m < 10
    · simp only [decDigits, if_pos hn, if_pos hm] at h
      exact digitChar_inj_lt n hn m hm (List.cons.injEq .. ▸ h).1
    · exfalso
      simp only [decDigits, if_pos hn, if_neg hm] at h
      have hne := decDigits_ne_nil m (m / 10) (by omega)
      cases hdm : decDigits m (m / 10) with
      | nil => exact hne hdm
      | cons a l =>
        rw [hdm] at h
        have hlen := congrArg List.length h
        simp [List.length_append] at hlen
    · exfalso
      simp only [decDigits, if_neg hn, if_pos hm] at h
      have hne := decDigits_ne_nil n (n / 10) (by omega)
      cases hdn : decDigits n (n / 10) with
      | nil => exact hne hdn
      | cons a l =>
        rw [hdn] at h
        have hlen := congrArg List.length h
        simp [List.length_append] at hlen
    · simp only [decDigits, if_neg hn, if_neg hm] at h
      have h2 := congrArg List.reverse h
      simp only [List.reverse_append, List.reverse_cons, List.reverse_nil,
        List.nil_append, List.singleton_append] at h2
      have hmod : n % 10 = m % 10 :=
        digitChar_inj_lt (n % 10) (Nat.mod_lt n (by omega)) (m % 10)
          (Nat.mod_lt m (by omega)) (List.cons.injEq .. ▸ h2).1
      have htail : (decDigits n (n / 10)).reverse = (decDigits m (m / 10)).reverse :=
        (List.cons.injEq .. ▸ h2).2
      have hpre : decDigits n (n / 10) = decDigits m (m / 10) :=
        List.reverse_injective htail
      have hdivn : n / 10 < n := Nat.div_lt_self (by omega) (by omega)
      have hdivm : m / 10 < m := Nat.div_lt_self (by omega) (by omega)
      have hpre' : decDigits (n / 10 + 1) (n / 10) = decDigits (m / 10 + 1) (m / 10) := by
        rw [← decDigits_fuel (n / 10) n (n / 10 + 1) hdivn (by omega),
            ← decDigits_fuel (m / 10) m (m / 10 + 1) hdivm (by omega)]
        exact hpre
      have hdiv := ih (n / 10) hdivn (m / 10) hpre'
      omega

theorem pyNatRepr_inj : ∀ n m : Nat, pyNatRepr n = pyNatRepr m → n = m := by
  intro n m h
  exact decDigits_inj n m (by simpa [pyNatRepr] using congrArg String.data h)

theorem aliasCand_inj (base : String) : ∀ a b : Nat,
    base ++ "_" ++ pyNatRepr a = base ++ "_" ++ pyNatRepr b → a = b := by
  intro a b h
  have hd := congrArg String.data h
  simp only [String.data_append] at hd
  have hd2 := List.append_cancel_left hd
  have : decDigits (a + 1) a = decDigits (b + 1) b := by
    simpa [pyNatRepr] using congrArg (fun l => l) hd2
  exact decDigits_inj a b this

theorem freshAliasLoop_not_mem (base : String) (existing : List String) :
    ∀ fuel counter,
      (∃ i, i < fuel ∧ base ++ "_" ++ pyNatRepr (counter + i) ∉ existing) →
      freshAliasLoop base existing counter fuel ∉ existing := by
  intro fuel
  induction fuel with
  | zero => intro counter ⟨i, hi, _⟩; omega
  | succ fuel ih =>
    intro counter ⟨i, hi, hni⟩
    simp only [freshAliasLoop]
    by_cases hmem : base ++ "_" ++ pyNatRepr counter ∈ existing
    · simp only [if_pos hmem]
      apply ih
      cases i with
      | zero => exact absurd (by simpa using hni) (by simpa using hmem)
      | succ j =>
        exact ⟨j, by omega, by
          have : counter + 1 + j = counter + (j + 1) := by omega
          rw [this]; exact hni⟩
    · simp only [if_neg hmem]
      exact hmem

theorem pyFreshAlias_not_mem (base : String) (existing : List String) :
    pyFreshAlias base existing ∉ existing := by
  unfold pyFreshAlias
  by_cases hb : base ∈ existing
  · simp only [if_pos hb]
    apply freshAliasLoop_not_mem
    by_contra hcon
    push_neg at hcon
    have hall : ∀ i, i < existing.length + 1 →
        base ++ "_" ++ pyNatRepr (2 + i) ∈ existing := hcon
    set cands := (List.range (existing.length + 1)).map
      (fun i => base ++ "_" ++ pyNatRepr (2 + i)) with hcands
    have hnodup : cands.Nodup := by
      apply List.Nodup.map _ (List.nodup_range _)
      intro a b hab
      have := aliasCand_inj base (2 + a) (2 + b) hab
      omega
    have hsub : ∀ x ∈ cands, x ∈ existing := by
      intro x hx
      rw [hcands, List.mem_map] at hx
      obtain ⟨i, hi, rfl⟩ := hx
      exact hall i (List.mem_range.mp hi)
    have hlen : cands.length = existing.length + 1 := by
      simp [hcands]
    have hcard1 : cands.toFinset.card = existing.length + 1 := by
      rw [List.toFinset_card_of_nodup hnodup, hlen]
    have hcard2 : cands.toFinset ⊆ existing.toFinset := by
      intro x hx
      exact List.mem_toFinset.mpr (hsub x (List.mem_toFinset.mp hx))
    have := Finset.card_le_card hcard2
    have := List.toFinset_card_le existing
    omega
  · simp only [if_neg hb]
    exact hb

/-! ## Lemmas: dict upsert -/

theorem lookup_overwrite {β : Type} (k : String) (v : β) :
    ∀ m : List (String × β), (m.any (fun p => p.1 == k)) = true →
      List.lookup k (m.map (fun p => if p.1 == k then (k, v) else p)) = some v := by
  intro m
  induction m with
  | nil => simp
  | cons p m ih =>
    intro hany
    rw [List.any_cons] at hany
    simp only [List.map_cons]
    by_cases hpk : p.1 = k
    · rw [if_pos (by simp [hpk])]
      simp [List.lookup]
    · have hb : (p.1 == k) = false := beq_eq_false_iff_ne.mpr hpk
      have hb2 : (k == p.1) = false := beq_eq_false_iff_ne.mpr (Ne.symm hpk)
      rw [if_neg (by simp [hb])]
      simp only [List.lookup, hb2]
      rw [hb, Bool.false_or] at hany
      exact ih hany

theorem lookup_append_fresh {β : Type} (k : String) (v : β) :
    ∀ m : List (String × β), (m.any (fun p => p.1 == k)) = false →
      List.lookup k (m ++ [(k, v)]) = some v := by
  intro m
  induction m with
  | nil => simp [List.lookup]
  | cons p m ih =>
    intro hany
    rw [List.any_cons] at hany
    have h1 : (p.1 == k) = false := by
      cases h : (p.1 == k) <;> simp [h] at hany ⊢
    have h2 : (m.any (fun p => p.1 == k)) = false := by
      rw [h1, Bool.false_or] at hany
      exact hany
    have hb2 : (k == p.1) = false :=
      beq_eq_false_iff_ne.mpr (Ne.symm (beq_eq_false_iff_ne.mp h1))
    simp only [List.cons_append, List.lookup, hb2]
    exact ih h2

theorem dictUpsert_lookup_self {β : Type} (m : List (String × β)) (k : String)
    (v : β) : (dictUpsert m k v).lookup k = some v := by
  unfold dictUpsert
  by_cases hany : m.any (fun p => p.1 == k)
  · rw [if_pos hany]
    exact lookup_overwrite k v m hany
  · rw [if_neg hany]
    exact lookup_append_fresh k v m (Bool.eq_false_iff.mpr hany)

theorem lookup_overwrite_ne {β : Type} (k k' : String) (v : β) (hne : k' ≠ k) :
    ∀ m : List (String × β),
      List.lookup k' (m.map (fun p => if p.1 == k then (k, v) else p)) =
        List.lookup k' m := by
  intro m
  induction m with
  | nil => simp
  | cons p m ih =>
    simp only [List.map_cons]
    by_cases hpk : p.1 = k
    · have hb : (k' == k) = false := beq_eq_false_iff_ne.mpr hne
      have hb2 : (k' == p.1) = false := beq_eq_false_iff_ne.mpr (hpk ▸ hne)
      rw [if_pos (by simp [hpk])]
      simp only [List.lookup, hb, hb2]
      exact ih
    · have hb : (p.1 == k) = false := beq_eq_false_iff_ne.mpr hpk
      rw [if_neg (by simp [hb])]
      simp only [List.lookup]
      cases hq : (k' == p.1) with
      | true => rfl
      | false => exact ih

theorem lookup_append_ne {β : Type} (k k' : String) (v : β) (hne : k' ≠ k) :
    ∀ m : List (String × β),
      List.lookup k' (m ++ [(k, v)]) = List.lookup k' m := by
  intro m
  induction m with
  | nil => simp [List.lookup, beq_eq_false_iff_ne.mpr hne]
  | cons p m ih =>
    simp only [List.cons_append, List.lookup]
    cases hq : (k' == p.1) with
    | true => rfl
    | false => exact ih

theorem dictUpsert_lookup_ne {β : Type} (m : List (String × β)) (k k' : String)
    (v : β) (hne : k' ≠ k) : (dictUpsert m k v).lookup k' = m.lookup k' := by
  unfold dictUpsert
  by_cases hany : m.any (fun p => p.1 == k)
  · rw [if_pos hany]
    exact lookup_overwrite_ne k k' v hne m
  · rw [if_neg hany]
    exact lookup_append_ne k k' v hne m

theorem dictUpsert_keys {β : Type} (m : List (String × β)) (k : String) (v : β) :
    (dictUpsert m k v).map (fun p => p.1) =
      if k ∈ m.map (fun p => p.1) then m.map (fun p => p.1)
      else m.map (fun p => p.1) ++ [k] := by
  unfold dictUpsert
  have hmem : (m.any (fun p => p.1 == k)) = true ↔ k ∈ m.map (fun p => p.1) := by
    simp [List.any_eq_true, List.mem_map, beq_iff_eq]
  by_cases hany : m.any (fun p => p.1 == k)
  · rw [if_pos hany, if_pos (hmem.mp hany), List.map_map]
    apply List.map_congr_left
    intro p _
    by_cases hp : p.1 = k
    · rw [Function.comp_apply, if_pos (by simp [hp])]
      exact hp.symm
    · rw [Function.comp_apply,
        if_neg (by simp [beq_eq_false_iff_ne.mpr hp])]
  · rw [if_neg hany, if_neg (fun hc => hany (hmem.mpr hc)), List.map_append]
    simp

/-! ## Lemmas: first-occurrence deduplication -/

theorem fodAux_fuel : ∀ (f f' : Nat) (l : List String), l.length ≤ f →
    l.length ≤ f' → firstOccurrenceDedupAux f l = firstOccurrenceDedupAux f' l := by
  intro f
  induction f with
  | zero =>
    intro f' l h _
    have : l = [] := List.length_eq_zero.mp (by omega)
    subst this
    cases f' <;> simp [firstOccurrenceDedupAux]
  | succ f ih =>
    intro f' l h h'
    cases l with
    | nil => cases f' <;> simp [firstOccurrenceDedupAux]
    | cons x xs =>
      cases f' with
      | zero => simp at h'
      | succ f' =>
        simp only [firstOccurrenceDedupAux, List.cons.injEq, true_and]
        apply ih
        · exact le_trans (List.length_filter_le _ _)
            (by simpa using Nat.le_of_succ_le_succ h)
        · exact le_trans (List.length_filter_le _ _)
            (by simpa using Nat.le_of_succ_le_succ h')

theorem fod_cons (x : String) (xs : List String) :
    firstOccurrenceDedup (x :: xs) =
      x :: firstOccurrenceDedup (xs.filter (fun y => y != x)) := by
  unfold firstOccurrenceDedup
  simp only [List.length_cons, firstOccurrenceDedupAux, List.cons.injEq, true_and]
  exact fodAux_fuel _ _ _ (List.length_filter_le _ _) le_rfl

theorem pyDedup_foldl (l : List String) : ∀ acc : List String,
    l.foldl (fun acc x => if x ∈ acc then acc else acc ++ [x]) acc =
      acc ++ firstOccurrenceDedup (l.filter (fun y => decide (y ∉ acc))) := by
  induction l with
  | nil =>
    intro acc
    simp [firstOccurrenceDedup, firstOccurrenceDedupAux]
  | cons x xs ih =>
    intro acc
    simp only [List.foldl_cons, List.filter_cons]
    by_cases hx : x ∈ acc
    · rw [if_pos hx]
      have hdec : decide (x ∉ acc) = false := by simp [hx]
      rw [hdec]
      simp only [Bool.false_eq_true, if_false]
      exact ih acc
    · rw [if_neg hx]
      have hdec : decide (x ∉ acc) = true := by simp [hx]
      rw [hdec]
      simp only [if_true]
      rw [ih (acc ++ [x]), fod_cons]
      have hfilters : xs.filter (fun y => decide (y ∉ acc ++ [x])) =
          (xs.filter (fun y => decide (y ∉ acc))).filter (fun y => y != x) := by
        rw [List.filter_filter]
        apply List.filter_congr
        intro y _
        by_cases h1 : y ∈ acc <;> by_cases h2 : y = x <;>
          simp [h1, h2, List.mem_append]
      rw [hfilters]
      simp

theorem pyDedup_eq_fod (l : List String) : pyDedup l = firstOccurrenceDedup l := by
  unfold pyDedup
  rw [pyDedup_foldl l []]
  have : l.filter (fun y => decide (y ∉ ([] : List String))) = l :=
    List.filter_eq_self.mpr (by intro a _; simp)
  rw [this, List.nil_append]

/-! ## Lemmas: measure specs and `set_visualization` -/

theorem measureOf_alias_fresh (allowed : List String) (dsName : String)
    (existing : List String) (raw : String) (m : MeasureSpec)
    (h : measureOf allowed dsName existing raw = .ok m) :
    m.«alias» ∉ existing := by
  simp only [measureOf] at h
  split_ifs at h <;> try exact Except.noConfusion h
  cases h
  exact pyFreshAlias_not_mem _ _

theorem buildMeasureSpecs_nodup (allowed : List String) (dsName : String) :
    ∀ (raws : List String) (acc specs : List MeasureSpec),
      (acc.map (fun s => s.«alias»)).Nodup →
      buildMeasureSpecs allowed dsName acc raws = .ok specs →
      (specs.map (fun s => s.«alias»)).Nodup := by
  intro raws
  induction raws with
  | nil =>
    intro acc specs hnd h
    simp only [buildMeasureSpecs] at h
    cases h
    exact hnd
  | cons raw rest ih =>
    intro acc specs hnd h
    simp only [buildMeasureSpecs] at h
    cases hm : measureOf allowed dsName (acc.map fun s => s.«alias») raw with
    | error e => rw [hm] at h; exact Except.noConfusion h
    | ok m =>
      rw [hm] at h
      apply ih (acc ++ [m]) specs _ h
      have hfresh := measureOf_alias_fresh _ _ _ _ _ hm
      simp only [List.map_append, List.map_cons, List.map_nil]
      simp [List.nodup_append, hnd, hfresh]

theorem set_visualization_ok (st : AgentState) (ct : String)
    (xs ys bs : List String) (opts : List (String × String))
    (st' : AgentState) (viz : VizSpec)
    (h : set_visualization st ct xs ys bs opts = .ok (st', viz)) :
    ∃ ds specs, st.dataset = some ds ∧
      buildMeasureSpecs (columnNames ds) ds.name [] ys = .ok specs ∧
      st' = { st with
              visualization :=
                some ⟨ct, xs, specs.map (fun m => m.«alias»), bs, opts⟩,
              dimensions := pyDedup (xs ++ bs),
              measure_specs := specs } := by
  cases hds : st.dataset with
  | none => simp [set_visualization, hds] at h
  | some ds =>
    simp only [set_visualization, hds] at h
    split_ifs at h <;> try exact Except.noConfusion h
    cases hbm : buildMeasureSpecs (columnNames ds) ds.name [] ys with
    | error e => rw [hbm] at h; exact Except.noConfusion h
    | ok specs =>
      rw [hbm] at h
      cases h
      exact ⟨ds, specs, rfl, hbm, rfl⟩

/-! ## Lemmas: stage discipline of the dialogue machine -/

theorem except_bind_ok {ε α β : Type} (a : α) (f : α → Except ε β) :
    (Except.ok a >>= f) = f a := rfl

theorem except_bind_error {ε α β : Type} (e : ε) (f : α → Except ε β) :
    ((Except.error e : Except ε α) >>= f) = Except.error e := rfl

theorem summarise_results_ok (o : Oracle) (ctx c' : ConversationContext)
    (r : String) (h : summarise_results o ctx = .ok (c', r)) :
    c'.stage = .adjust ∧ c'.agent = ctx.agent := by
  cases hd : describe_state ctx.agent with
  | error e => simp [summarise_results, hd, except_bind_error] at h
  | ok summary =>
    simp only [summarise_results, hd, except_bind_ok] at h
    cases h
    exact ⟨rfl, rfl⟩

theorem handle_dataset_selection_stage (ctx : ConversationContext)
    (t : String) (c' : ConversationContext) (r : String)
    (h : handle_dataset_selection ctx t = .ok (c', r)) :
    c'.stage = .summary → ctx.stage = .summary := by
  intro hc
  simp only [handle_dataset_selection] at h
  cases hm : match_dataset t with
  | none =>
    simp only [hm] at h
    cases h
    exact hc
  | some name =>
    simp only [hm] at h
    cases hs : select_dataset ctx.agent name with
    | error e => simp [hs, except_bind_error] at h
    | ok p =>
      simp only [hs, except_bind_ok] at h
      cases hf : suggest_filters p.1 with
      | error e => simp [hf, except_bind_error] at h
      | ok suggestions =>
        simp only [hf, except_bind_ok] at h
        cases he : suggest_enrichments p.1 with
        | error e => simp [he, except_bind_error] at h
        | ok enrichment =>
          simp only [he, except_bind_ok] at h
          cases h
          exact absurd hc (by simp)

theorem handle_filtering_stage (ctx : ConversationContext) (t : String)
    (c' : ConversationContext) (r : String)
    (h : handle_filtering ctx t = .ok (c', r)) :
    c'.stage = .summary → ctx.stage = .summary := by
  intro hc
  simp only [handle_filtering] at h
  by_cases h1 : pyLower t ∈ (["done", "next", "visual"] : List String)
  · rw [if_pos h1] at h
    cases h
    exact absurd hc (by simp)
  · rw [if_neg h1] at h
    cases hp : parse_filter ctx.agent.dataset t with
    | none =>
      simp only [hp] at h
      cases h
      exact hc
    | some p =>
      simp only [hp] at h
      cases ha : add_filter ctx.agent p.1 p.2 with
      | error e =>
        simp only [ha] at h
        by_cases hrt : e.isRuntime = true
        · rw [if_pos hrt] at h
          exact Except.noConfusion h
        · rw [if_neg hrt] at h
          cases h
          exact hc
      | ok st =>
        simp only [ha] at h
        cases h
        exact hc

theorem handle_visualisation_stage (o : Oracle) (ctx : ConversationContext)
    (t : String) (c' : ConversationContext) (r : String)
    (h : handle_visualisation o ctx t = .ok (c', r)) :
    c'.stage = .summary → ctx.stage = .summary := by
  intro hc
  simp only [handle_visualisation] at h
  cases hp : parse_visualisation t with
  | none =>
    simp only [hp] at h
    cases h
    exact hc
  | some payload =>
    simp only [hp] at h
    cases hs : set_visualization ctx.agent payload.chart_type payload.x_fields
        payload.y_measures payload.breakdowns payload.options with
    | error e =>
      simp only [hs] at h
      by_cases hrt : e.isRuntime = true
      · rw [if_pos hrt] at h
        exact Except.noConfusion h
      · rw [if_neg hrt] at h
        cases h
        exact hc
    | ok p =>
      simp only [hs] at h
      have := (summarise_results_ok o _ c' r h).1
      rw [this] at hc
      exact absurd hc (by simp)

theorem handle_adjustment_stage (o : Oracle) (ctx : ConversationContext)
    (t : String) (c' : ConversationContext) (r : String)
    (h : handle_adjustment o ctx t = .ok (c', r)) :
    c'.stage = .summary → ctx.stage = .summary := by
  intro hc
  simp only [handle_adjustment] at h
  by_cases h1 : pyLower t ∈ (["again", "restart", "reset", "new"] : List String)
  · rw [if_pos h1] at h
    cases h
    exact absurd hc (by simp [startSession, initialContext])
  · rw [if_neg h1] at h
    by_cases h2 : pyLower t ∈
        (["refresh", "show", "show chart", "render", "update"] : List String)
    · rw [if_pos h2] at h
      have := (summarise_results_ok o _ c' r h).1
      rw [this] at hc
      exact absurd hc (by simp)
    · rw [if_neg h2] at h
      by_cases h3 : (adjustTokens.any (fun tk => strHasSub (pyLower t) tk)) = true
      · rw [if_pos h3] at h
        exact absurd (handle_visualisation_stage o _ t c' r h hc) (by simp)
      · rw [if_neg h3] at h
        by_cases h4 : (strStartsWith (pyLower t) "filter ") = true
        · rw [if_pos h4] at h
          cases hp : parse_filter ctx.agent.dataset (splitOnceChar ' ' t).2 with
          | none =>
            simp only [hp] at h
            cases h
            exact hc
          | some p =>
            simp only [hp] at h
            cases ha : add_filter ctx.agent p.1 p.2 with
            | error e =>
              simp only [ha] at h
              by_cases hrt : e.isRuntime = true
              · rw [if_pos hrt] at h
                exact Except.noConfusion h
              · rw [if_neg hrt] at h
                cases h
                exact hc
            | ok st =>
              simp only [ha] at h
              cases hsum : summarise_results o { ctx with agent := st } with
              | error e => rw [hsum] at h; exact Except.noConfusion h
              | ok p2 =>
                rw [hsum] at h
                cases h
                have := (summarise_results_ok o _ p2.1 p2.2 (by rw [hsum])).1
                rw [this] at hc
                exact absurd hc (by simp)
        · rw [if_neg h4] at h
          by_cases h5 : (pyLower t == "filters") = true
          · rw [if_pos h5] at h
            cases h
            exact hc
          · rw [if_neg h5] at h
            by_cases h6 : (pyLower t == "chart") = true
            · rw [if_pos h6] at h
              cases hcp : ctx.chart_path with
              | none =>
                simp only [hcp] at h
                cases h
                exact hc
              | some p =>
                simp only [hcp] at h
                cases h
                exact hc
            · rw [if_neg h6] at h
              cases h
              exact hc

theorem handle_summary_follow_up_stage (o : Oracle) (ctx : ConversationContext)
    (t : String) (c' : ConversationContext) (r : String)
    (h : handle_summary_follow_up o ctx t = .ok (c', r)) :
    c'.stage = .summary → ctx.stage = .summary := by
  intro hc
  simp only [handle_summary_follow_up] at h
  split_ifs at h with h1
  · cases h
    exact absurd hc (by simp [startSession, initialContext])
  · exact handle_adjustment_stage o ctx t c' r h hc

theorem handle_input_stage (o : Oracle) (ctx : ConversationContext)
    (msg : String) (c' : ConversationContext) (r : String)
    (h : handle_input o ctx msg = .ok (c', r)) :
    c'.stage = .summary → ctx.stage = .summary := by
  intro hc
  simp only [handle_input] at h
  split_ifs at h with h1 h2 h3 h4
  · cases h; exact hc
  · cases h; exact hc
  · cases h; exact hc
  · cases h
    exact absurd hc (by simp [startSession, initialContext])
  · cases hst : ctx.stage with
    | dataset =>
      rw [hst] at h
      rw [← hst]
      exact handle_dataset_selection_stage ctx _ c' r h hc
    | filters =>
      rw [hst] at h
      rw [← hst]
      exact handle_filtering_stage ctx _ c' r h hc
    | visualisation =>
      rw [hst] at h
      rw [← hst]
      exact handle_visualisation_stage o ctx _ c' r h hc
    | summary => rfl
    | adjust =>
      rw [hst] at h
      rw [← hst]
      exact handle_adjustment_stage o ctx _ c' r h hc
    | greeting =>
      rw [hst] at h
      cases h
      rw [← hst]
      exact hc

theorem reachable_stage_not_summary :
    ∀ ctx : ConversationContext, Reachable ctx → ctx.stage ≠ .summary := by
  intro ctx hr
  induction hr with
  | init => simp [initialContext]
  | started ctx' _ _ => simp [startSession]
  | step o c c' msg resp _ hstep ih =>
    intro hc
    exact ih (handle_input_stage o c msg c' resp hstep hc)

/-! ## Lemmas: the filters invariant -/

theorem fw_initial : FiltersWellFormed initialAgentState :=
  ⟨by simp [initialAgentState], fun ds _ k hk => absurd hk (by simp [initialAgentState])⟩

theorem fw_select (st st' : AgentState) (n : String) (ds : Dataset)
    (h : select_dataset st n = .ok (st', ds)) : FiltersWellFormed st' := by
  unfold select_dataset at h
  cases hg : get_dataset n with
  | error e => rw [hg] at h; exact Except.noConfusion h
  | ok d =>
    rw [hg] at h
    cases h
    exact ⟨by simp, fun ds' _ k hk => absurd hk (by simp)⟩

theorem fw_add (st st' : AgentState) (c : String) (v : FilterValue)
    (hfw : FiltersWellFormed st) (h : add_filter st c v = .ok st') :
    FiltersWellFormed st' := by
  unfold add_filter at h
  cases hds : st.dataset with
  | none => rw [hds] at h; exact Except.noConfusion h
  | some ds =>
    simp only [hds] at h
    by_cases hc : c ∈ columnNames ds
    · rw [if_pos hc] at h
      cases h
      refine ⟨?_, ?_⟩
      · show ((dictUpsert st.filters c v).map (fun p => p.1)).Nodup
        rw [dictUpsert_keys]
        by_cases hk : c ∈ st.filters.map (fun p => p.1)
        · rw [if_pos hk]; exact hfw.1
        · rw [if_neg hk]
          simp [List.nodup_append, hfw.1, hk]
      · intro ds' hds' k hk
        have hds2 : some ds = some ds' := hds'
        have hdd : ds' = ds := (Option.some_inj.mp hds2).symm
        subst hdd
        have hk' : k ∈ (dictUpsert st.filters c v).map (fun p => p.1) := hk
        rw [dictUpsert_keys] at hk'
        by_cases hkk : c ∈ st.filters.map (fun p => p.1)
        · rw [if_pos hkk] at hk'
          exact hfw.2 ds' hds k hk'
        · rw [if_neg hkk] at hk'
          rcases List.mem_append.mp hk' with hk1 | hk2
          · exact hfw.2 ds' hds k hk1
          · rw [List.mem_singleton.mp hk2]; exact hc
    · rw [if_neg hc] at h; exact Except.noConfusion h

theorem fw_setviz (st st' : AgentState) (ct : String)
    (xs ys bs : List String) (opts : List (String × String)) (viz : VizSpec)
    (hfw : FiltersWellFormed st)
    (h : set_visualization st ct xs ys bs opts = .ok (st', viz)) :
    FiltersWellFormed st' := by
  obtain ⟨ds, specs, hds, hbm, rfl⟩ := set_visualization_ok st ct xs ys bs opts st' viz h
  refine ⟨hfw.1, ?_⟩
  intro ds' hds' k hk
  have hds2 : st.dataset = some ds' := hds'
  exact hfw.2 ds' hds2 k hk

theorem fw_reset (st : AgentState) : FiltersWellFormed st.reset := fw_initial

theorem summarise_results_inv (o : Oracle) (ctx c' : ConversationContext)
    (r : String) (hfw : FiltersWellFormed ctx.agent)
    (h : summarise_results o ctx = .ok (c', r)) : FiltersWellFormed c'.agent := by
  rw [(summarise_results_ok o ctx c' r h).2]
  exact hfw

theorem handle_dataset_selection_inv (ctx : ConversationContext)
    (t : String) (c' : ConversationContext) (r : String)
    (hfw : FiltersWellFormed ctx.agent)
    (h : handle_dataset_selection ctx t = .ok (c', r)) :
    FiltersWellFormed c'.agent := by
  simp only [handle_dataset_selection] at h
  cases hm : match_dataset t with
  | none =>
    simp only [hm] at h
    cases h
    exact hfw
  | some name =>
    simp only [hm] at h
    cases hs : select_dataset ctx.agent name with
    | error e => simp [hs, except_bind_error] at h
    | ok p =>
      simp only [hs, except_bind_ok] at h
      cases hf : suggest_filters p.1 with
      | error e => simp [hf, except_bind_error] at h
      | ok suggestions =>
        simp only [hf, except_bind_ok] at h
        cases he : suggest_enrichments p.1 with
        | error e => simp [he, except_bind_error] at h
        | ok enrichment =>
          simp only [he, except_bind_ok] at h
          cases h
          exact fw_select ctx.agent p.1 name p.2 (by rw [hs])

theorem handle_filtering_inv (ctx : ConversationContext) (t : String)
    (c' : ConversationContext) (r : String)
    (hfw : FiltersWellFormed ctx.agent)
    (h : handle_filtering ctx t = .ok (c', r)) :
    FiltersWellFormed c'.agent := by
  simp only [handle_filtering] at h
  by_cases h1 : pyLower t ∈ (["done", "next", "visual"] : List String)
  · rw [if_pos h1] at h
    cases h
    exact hfw
  · rw [if_neg h1] at h
    cases hp : parse_filter ctx.agent.dataset t with
    | none =>
      simp only [hp] at h
      cases h
      exact hfw
    | some p =>
      simp only [hp] at h
      cases ha : add_filter ctx.agent p.1 p.2 with
      | error e =>
        simp only [ha] at h
        by_cases hrt : e.isRuntime = true
        · rw [if_pos hrt] at h
          exact Except.noConfusion h
        · rw [if_neg hrt] at h
          cases h
          exact hfw
      | ok st =>
        simp only [ha] at h
        cases h
        exact fw_add ctx.agent st p.1 p.2 hfw ha

theorem handle_visualisation_inv (o : Oracle) (ctx : ConversationContext)
    (t : String) (c' : ConversationContext) (r : String)
    (hfw : FiltersWellFormed ctx.agent)
    (h : handle_visualisation o ctx t = .ok (c', r)) :
    FiltersWellFormed c'.agent := by
  simp only [handle_visualisation] at h
  cases hp : parse_visualisation t with
  | none =>
    simp only [hp] at h
    cases h
    exact hfw
  | some payload =>
    simp only [hp] at h
    cases hs : set_visualization ctx.agent payload.chart_type payload.x_fields
        payload.y_measures payload.breakdowns payload.options with
    | error e =>
      simp only [hs] at h
      by_cases hrt : e.isRuntime = true
      · rw [if_pos hrt] at h
        exact Except.noConfusion h
      · rw [if_neg hrt] at h
        cases h
        exact hfw
    | ok p =>
      simp only [hs] at h
      have hfw2 : FiltersWellFormed p.1 :=
        fw_setviz ctx.agent p.1 payload.chart_type payload.x_fields
          payload.y_measures payload.breakdowns payload.options p.2 hfw (by rw [hs])
      exact summarise_results_inv o _ c' r hfw2 h

theorem handle_adjustment_inv (o : Oracle) (ctx : ConversationContext)
    (t : String) (c' : ConversationContext) (r : String)
    (hfw : FiltersWellFormed ctx.agent)
    (h : handle_adjustment o ctx t = .ok (c', r)) :
    FiltersWellFormed c'.agent := by
  simp only [handle_adjustment] at h
  by_cases h1 : pyLower t ∈ (["again", "restart", "reset", "new"] : List String)
  · rw [if_pos h1] at h
    cases h
    exact fw_initial
  · rw [if_neg h1] at h
    by_cases h2 : pyLower t ∈
        (["refresh", "show", "show chart", "render", "update"] : List String)
    · rw [if_pos h2] at h
      exact summarise_results_inv o ctx c' r hfw h
    · rw [if_neg h2] at h
      by_cases h3 : (adjustTokens.any (fun tk => strHasSub (pyLower t) tk)) = true
      · rw [if_pos h3] at h
        exact handle_visualisation_inv o { ctx with stage := Stage.visualisation }
          t c' r hfw h
      · rw [if_neg h3] at h
        by_cases h4 : (strStartsWith (pyLower t) "filter ") = true
        · rw [if_pos h4] at h
          cases hp : parse_filter ctx.agent.dataset (splitOnceChar ' ' t).2 with
          | none =>
            simp only [hp] at h
            cases h
            exact hfw
          | some p =>
            simp only [hp] at h
            cases ha : add_filter ctx.agent p.1 p.2 with
            | error e =>
              simp only [ha] at h
              by_cases hrt : e.isRuntime = true
              · rw [if_pos hrt] at h
                exact Except.noConfusion h
              · rw [if_neg hrt] at h
                cases h
                exact hfw
            | ok st =>
              simp only [ha] at h
              cases hsum : summarise_results o { ctx with agent := st } with
              | error e => rw [hsum] at h; exact Except.noConfusion h
              | ok p2 =>
                rw [hsum] at h
                cases h
                exact summarise_results_inv o _ p2.1 p2.2
                  (fw_add ctx.agent st p.1 p.2 hfw ha) (by rw [hsum])
        · rw [if_neg h4] at h
          by_cases h5 : (pyLower t == "filters") = true
          · rw [if_pos h5] at h
            cases h
            exact hfw
          · rw [if_neg h5] at h
            by_cases h6 : (pyLower t == "chart") = true
            · rw [if_pos h6] at h
              cases hcp : ctx.chart_path with
              | none =>
                simp only [hcp] at h
                cases h
                exact hfw
              | some p =>
                simp only [hcp] at h
                cases h
                exact hfw
            · rw [if_neg h6] at h
              cases h
              exact hfw

theorem handle_summary_follow_up_inv (o : Oracle) (ctx : ConversationContext)
    (t : String) (c' : ConversationContext) (r : String)
    (hfw : FiltersWellFormed ctx.agent)
    (h : handle_summary_follow_up o ctx t = .ok (c', r)) :
    FiltersWellFormed c'.agent := by
  simp only [handle_summary_follow_up] at h
  split_ifs at h with h1
  · cases h
    exact fw_initial
  · exact handle_adjustment_inv o ctx t c' r hfw h

theorem handle_input_inv (o : Oracle) (ctx : ConversationContext)
    (msg : String) (c' : ConversationContext) (r : String)
    (hfw : FiltersWellFormed ctx.agent)
    (h : handle_input o ctx msg = .ok (c', r)) :
    FiltersWellFormed c'.agent := by
  simp only [handle_input] at h
  split_ifs at h with h1 h2 h3 h4
  · cases h; exact hfw
  · cases h; exact hfw
  · cases h; exact hfw
  · cases h; exact fw_initial
  · cases hst : ctx.stage with
    | dataset =>
      rw [hst] at h
      exact handle_dataset_selection_inv ctx _ c' r hfw h
    | filters =>
      rw [hst] at h
      exact handle_filtering_inv ctx _ c' r hfw h
    | visualisation =>
      rw [hst] at h
      exact handle_visualisation_inv o ctx _ c' r hfw h
    | summary =>
      rw [hst] at h
      exact handle_summary_follow_up_inv o ctx _ c' r hfw h
    | adjust =>
      rw [hst] at h
      exact handle_adjustment_inv o ctx _ c' r hfw h
    | greeting =>
      rw [hst] at h
      cases h
      exact hfw

theorem reachable_filters_wf :
    ∀ ctx : ConversationContext, Reachable ctx → FiltersWellFormed ctx.agent := by
  intro ctx hr
  induction hr with
  | init => exact fw_initial
  | started ctx' _ ih => exact ih
  | step o c c' msg resp _ hstep ih =>
    exact handle_input_inv o c msg c' resp ih hstep

/-! ## Claim theorems -/

/-- C1 counterexample: the claim says a `Set(v1, v2)` of size exactly 2
compiles to `col IN ('v1', 'v2')`, but `build_where_clause` compiles every
two-element tuple — and a two-valued Set is represented as a two-element
tuple — to `col BETWEEN 'v1' AND 'v2'`. -/
theorem C1_counterexample :
    build_where_clause c1SetState = " WHERE region BETWEEN 'India' AND 'US'" ∧
    build_where_clause c1SetState ≠ " WHERE region IN ('India', 'US')" := by
  constructor <;> decide

/-- C1 (amended): for every non-empty filter mapping the compiled WHERE
clause has exactly one conjunct per filter joined with `AND` in insertion
order, where a two-element tuple (`Range`, and also a two-element `Set`,
which shares its representation) compiles to `BETWEEN`, a tuple of any
other size to `IN` with quoted comma-separated members, a string scalar to
`col = 'v'` and a numeric scalar to `col = v` unquoted — that is,
`build_where_clause` agrees with the spec-modelled `specWhereClause`. -/
theorem C1_amended_theorem :
    ∀ st : AgentState,
      build_where_clause st = specWhereClause st.filters ∧
      (st.filters ≠ [] →
        build_where_clause st =
          " WHERE " ++ String.intercalate " AND "
            (st.filters.map (fun p => specWhereConjunct p.1 p.2))) := by
  have hconj : ∀ (c : String) (val : FilterValue),
      whereConjunct c val = specWhereConjunct c val := by
    intro c val
    match val with
    | .scalar (.s v) => rfl
    | .scalar (.n d) => rfl
    | .tuple [] => rfl
    | .tuple [a] => rfl
    | .tuple [a, b] => rfl
    | .tuple (a :: b :: x :: rest) => rfl
  intro st
  have hmap : st.filters.map (fun p => whereConjunct p.1 p.2) =
      st.filters.map (fun p => specWhereConjunct p.1 p.2) :=
    List.map_congr_left (fun p _ => hconj p.1 p.2)
  constructor
  · unfold build_where_clause specWhereClause
    by_cases h : st.filters.isEmpty
    · rw [if_pos h, if_pos (List.isEmpty_iff.mp h)]
    · rw [if_neg h, if_neg (fun hc => h (List.isEmpty_iff.mpr hc)), hmap]
  · intro hne
    unfold build_where_clause
    rw [if_neg (fun hc => hne (List.isEmpty_iff.mp hc)), hmap]

/-- C1 witness: the amended theorem evaluated on the concrete two-valued
Set state. -/
theorem C1_witness :
    build_where_clause c1SetState = specWhereClause c1SetState.filters ∧
    build_where_clause c1SetState =
      " WHERE " ++ String.intercalate " AND "
        (c1SetState.filters.map (fun p => specWhereConjunct p.1 p.2)) :=
  ⟨(C1_amended_theorem c1SetState).1,
   (C1_amended_theorem c1SetState).2 (by decide)⟩

set_option maxRecDepth 4000 in
/-- C2: query-compilation determinism — the session with dataset
`subscribers`, filters `{join_date: Range("2025-10-01","2025-11-01"),
region: "India"}` in that insertion order, dimensions `[region, plan_type]`
and the single measure `SUM(monthly_spend) AS sum_monthly_spend`, compiled
with the default limit 100, yields exactly the expected statement. -/
theorem C2_theorem : build_sql_query c2State 100 =
    .ok "SELECT region, plan_type, SUM(monthly_spend) AS sum_monthly_spend FROM subscribers WHERE join_date BETWEEN '2025-10-01' AND '2025-11-01' AND region = 'India' GROUP BY region, plan_type ORDER BY region, plan_type LIMIT 100;" := by
  decide

set_option maxRecDepth 4000 in
/-- C3: after every successful `set_visualization` the measure aliases are
pairwise distinct; alias uniqueness is preserved by `select_dataset`,
`add_filter` and `reset` (which replace or keep the measure specs); and the
example `y = [sum:monthly_spend, sum:monthly_spend]` yields the aliases
`sum_monthly_spend` and `sum_monthly_spend_2`. -/
theorem C3_theorem :
    (∀ (st : AgentState) (ct : String) (xs ys bs : List String)
        (opts : List (String × String)) (st' : AgentState) (viz : VizSpec),
      set_visualization st ct xs ys bs opts = .ok (st', viz) →
      (st'.measure_specs.map (fun m => m.«alias»)).Nodup) ∧
    (∀ (st st' : AgentState) (n : String) (ds : Dataset),
      select_dataset st n = .ok (st', ds) →
      (st'.measure_specs.map (fun m => m.«alias»)).Nodup) ∧
    (∀ (st st' : AgentState) (c : String) (v : FilterValue),
      (st.measure_specs.map (fun m => m.«alias»)).Nodup →
      add_filter st c v = .ok st' →
      (st'.measure_specs.map (fun m => m.«alias»)).Nodup) ∧
    (∀ st : AgentState,
      ((st.reset).measure_specs.map (fun m => m.«alias»)).Nodup) ∧
    set_visualization subscribersFreshState "bar" ["region"]
        ["sum:monthly_spend", "sum:monthly_spend"] [] [] =
      .ok (c3ResultState,
        ⟨"bar", ["region"], ["sum_monthly_spend", "sum_monthly_spend_2"],
          [], []⟩) ∧
    c3ResultState.measure_specs.map (fun m => m.«alias») =
      ["sum_monthly_spend", "sum_monthly_spend_2"] := by
  refine ⟨?_, ?_, ?_, ?_, by decide, by decide⟩
  · intro st ct xs ys bs opts st' viz h
    obtain ⟨ds, specs, hds, hbm, rfl⟩ :=
      set_visualization_ok st ct xs ys bs opts st' viz h
    exact buildMeasureSpecs_nodup _ _ ys [] specs (by simp) hbm
  · intro st st' n ds h
    unfold select_dataset at h
    cases hg : get_dataset n with
    | error e => rw [hg] at h; exact Except.noConfusion h
    | ok d =>
      rw [hg] at h
      cases h
      simp
  · intro st st' c v hnd h
    unfold add_filter at h
    cases hds : st.dataset with
    | none => rw [hds] at h; exact Except.noConfusion h
    | some ds =>
      simp only [hds] at h
      by_cases hc : c ∈ columnNames ds
      · rw [if_pos hc] at h
        cases h
        exact hnd
      · rw [if_neg hc] at h
        exact Except.noConfusion h
  · intro st
    simp [AgentState.reset, initialAgentState]

set_option maxRecDepth 4000 in
/-- C3 witness: the alias-uniqueness theorem evaluated on the collision
example. -/
theorem C3_witness :
    (c3ResultState.measure_specs.map (fun m => m.«alias»)).Nodup :=
  C3_theorem.1 subscribersFreshState "bar" ["region"]
    ["sum:monthly_spend", "sum:monthly_spend"] [] [] c3ResultState
    ⟨"bar", ["region"], ["sum_monthly_spend", "sum_monthly_spend_2"], [], []⟩
    (by decide)

set_option maxRecDepth 4000 in
/-- C4: after every successful `set_visualization` the dimensions are the
dedup-by-first-occurrence of `x_fields ++ breakdowns`; in particular
`x = [region, plan_type]` with `breakdowns = [region]` yields
`[region, plan_type]`. -/
theorem C4_theorem :
    (∀ (st : AgentState) (ct : String) (xs ys bs : List String)
        (opts : List (String × String)) (st' : AgentState) (viz : VizSpec),
      set_visualization st ct xs ys bs opts = .ok (st', viz) →
      st'.dimensions = firstOccurrenceDedup (xs ++ bs)) ∧
    set_visualization subscribersFreshState "bar" ["region", "plan_type"]
        ["sum:monthly_spend"] ["region"] [] =
      .ok (c4ResultState,
        ⟨"bar", ["region", "plan_type"], ["sum_monthly_spend"],
          ["region"], []⟩) ∧
    c4ResultState.dimensions = ["region", "plan_type"] := by
  refine ⟨?_, by decide, by decide⟩
  intro st ct xs ys bs opts st' viz h
  obtain ⟨ds, specs, hds, hbm, rfl⟩ :=
    set_visualization_ok st ct xs ys bs opts st' viz h
  show pyDedup (xs ++ bs) = firstOccurrenceDedup (xs ++ bs)
  exact pyDedup_eq_fod _

set_option maxRecDepth 4000 in
/-- C4 witness: the dimension theorem evaluated on the dedup example. -/
theorem C4_witness :
    c4ResultState.dimensions =
      firstOccurrenceDedup (["region", "plan_type"] ++ ["region"]) :=
  C4_theorem.1 subscribersFreshState "bar" ["region", "plan_type"]
    ["sum:monthly_spend"] ["region"] [] c4ResultState
    ⟨"bar", ["region", "plan_type"], ["sum_monthly_spend"], ["region"], []⟩
    (by decide)

/-- C5: with an active dataset, `add_filter` on one of its columns succeeds
and upserts the value (the lookup afterwards returns it, and a later call
for the same column overwrites it), while a column not in the dataset fails
with the unknown-column error and produces no new state. -/
theorem C5_theorem :
    ∀ (st : AgentState) (ds : Dataset) (colName : String) (v : FilterValue),
      st.dataset = some ds →
      (colName ∈ columnNames ds →
        add_filter st colName v =
          .ok { st with filters := dictUpsert st.filters colName v } ∧
        (dictUpsert st.filters colName v).lookup colName = some v ∧
        ∀ v₂ : FilterValue,
          (dictUpsert (dictUpsert st.filters colName v) colName v₂).lookup
              colName = some v₂) ∧
      (colName ∉ columnNames ds →
        add_filter st colName v = .error (.unknownColumn colName ds.name)) := by
  intro st ds colName v hds
  constructor
  · intro hc
    refine ⟨?_, dictUpsert_lookup_self _ _ _,
      fun v₂ => dictUpsert_lookup_self _ _ _⟩
    simp only [add_filter, hds, if_pos hc]
  · intro hc
    simp only [add_filter, hds, if_neg hc]

/-- C5 witness: `add_filter` evaluated on a concrete subscribers session,
including an overwrite and an unknown column. -/
theorem C5_witness :
    add_filter subscribersFreshState "region" (FilterValue.scalar (.s "India")) =
      .ok { subscribersFreshState with
            filters := dictUpsert subscribersFreshState.filters "region"
              (FilterValue.scalar (.s "India")) } ∧
    (dictUpsert (dictUpsert subscribersFreshState.filters "region"
        (FilterValue.scalar (.s "India"))) "region"
        (FilterValue.scalar (.s "Asia"))).lookup "region" =
      some (FilterValue.scalar (.s "Asia")) ∧
    add_filter subscribersFreshState "nope" (FilterValue.scalar (.s "x")) =
      .error (.unknownColumn "nope" "subscribers") := by
  have h := C5_theorem subscribersFreshState subscribersDS "region"
    (FilterValue.scalar (.s "India")) (by decide)
  have h2 := C5_theorem subscribersFreshState subscribersDS "nope"
    (FilterValue.scalar (.s "x")) (by decide)
  exact ⟨(h.1 (by decide)).1,
    (h.1 (by decide)).2.2 (FilterValue.scalar (.s "Asia")),
    h2.2 (by decide)⟩

/-- C6: `select_dataset` with a registry name stores the dataset reference
and replaces filters, visualization, dimensions and measure specs with
empty defaults, from every prior state; with an unregistered name it fails
with the unknown-dataset error and produces no new state. -/
theorem C6_theorem :
    ∀ (st : AgentState) (name : String),
      (∀ ds : Dataset, DATASETS.lookup name = some ds →
        select_dataset st name =
          .ok ({ dataset := some ds, filters := [], visualization := none,
                 dimensions := [], measure_specs := [] }, ds)) ∧
      (DATASETS.lookup name = none →
        select_dataset st name = .error (.unknownDataset name)) := by
  intro st name
  constructor
  · intro ds hds
    simp only [select_dataset, get_dataset, hds]
  · intro hnone
    simp only [select_dataset, get_dataset, hnone]

/-- C6 witness: `select_dataset` evaluated from a concrete non-empty state,
for a registered and an unregistered name. -/
theorem C6_witness :
    select_dataset c2State "subscribers" =
      .ok ({ dataset := some subscribersDS, filters := [],
             visualization := none, dimensions := [],
             measure_specs := [] }, subscribersDS) ∧
    select_dataset c2State "nosuch" = .error (.unknownDataset "nosuch") :=
  ⟨(C6_theorem c2State "subscribers").1 subscribersDS (by decide),
   (C6_theorem c2State "nosuch").2 (by decide)⟩

set_option maxRecDepth 8000 in
/-- C7 counterexample: in the ADJUST stage, the input `x=region` contains a
visualization token but fails the visualization parse; the turn returns the
usage hint without touching the session, yet the stage has been moved to
VISUALISATION — the claim that the stage is unchanged in every stage
including ADJUST is false. -/
theorem C7_counterexample :
    handle_input trivialOracle adjustExampleContext "x=region" =
      .ok ({ adjustExampleContext with stage := Stage.visualisation },
        vizHint) ∧
    ({ adjustExampleContext with stage := Stage.visualisation }).stage ≠
      adjustExampleContext.stage ∧
    parse_visualisation "x=region" = none := by
  refine ⟨by decide, by decide, by decide⟩

/-- C7 (amended): an input whose filter or visualization parse fails yields
a usage hint and leaves the session state (dataset, filters, dimensions,
measures, visualization) and the artifact unchanged; the stage is also
unchanged in the FILTERS and VISUALISATION stages, but in the ADJUST stage
an input containing a visualization token first moves the stage to
VISUALISATION, where it remains after the failed parse. -/
theorem C7_amended_theorem :
    ∀ (o : Oracle) (ctx : ConversationContext) (msg : String),
      (pyStrip msg).isEmpty = false →
      pyLower (pyStrip msg) ∉ (["quit", "exit"] : List String) →
      pyLower (pyStrip msg) ∉ (["help", "?"] : List String) →
      pyLower (pyStrip msg) ∉ (["reset", "restart"] : List String) →
      ((ctx.stage = Stage.filters →
        pyLower (pyStrip msg) ∉ (["done", "next", "visual"] : List String) →
        parse_filter ctx.agent.dataset (pyStrip msg) = none →
        handle_input o ctx msg = .ok (ctx, filterHint)) ∧
      (ctx.stage = Stage.visualisation →
        parse_visualisation (pyStrip msg) = none →
        handle_input o ctx msg = .ok (ctx, vizHint)) ∧
      (ctx.stage = Stage.adjust →
        pyLower (pyStrip msg) ∉
          (["again", "restart", "reset", "new"] : List String) →
        pyLower (pyStrip msg) ∉
          (["refresh", "show", "show chart", "render", "update"] : List String) →
        (adjustTokens.any (fun tk => strHasSub (pyLower (pyStrip msg)) tk))
            = true →
        parse_visualisation (pyStrip msg) = none →
        handle_input o ctx msg =
          .ok ({ ctx with stage := Stage.visualisation }, vizHint)) ∧
      (ctx.stage = Stage.adjust →
        pyLower (pyStrip msg) ∉
          (["again", "restart", "reset", "new"] : List String) →
        pyLower (pyStrip msg) ∉
          (["refresh", "show", "show chart", "render", "update"] : List String) →
        (adjustTokens.any (fun tk => strHasSub (pyLower (pyStrip msg)) tk))
            = false →
        (strStartsWith (pyLower (pyStrip msg)) "filter ") = true →
        parse_filter ctx.agent.dataset (splitOnceChar ' ' (pyStrip msg)).2
            = none →
        handle_input o ctx msg = .ok (ctx, filterTweakHint))) := by
  intro o ctx msg hne hq hh hr
  refine ⟨?_, ?_, ?_, ?_⟩
  · intro hstage hd hp
    simp only [handle_input, hne, Bool.false_eq_true, if_false,
      if_neg hq, if_neg hh, if_neg hr, hstage]
    simp only [handle_filtering, if_neg hd, hp]
  · intro hstage hp
    simp only [handle_input, hne, Bool.false_eq_true, if_false,
      if_neg hq, if_neg hh, if_neg hr, hstage]
    simp only [handle_visualisation, hp]
  · intro hstage ha hrf htok hp
    simp only [handle_input, hne, Bool.false_eq_true, if_false,
      if_neg hq, if_neg hh, if_neg hr, hstage]
    simp only [handle_adjustment, if_neg ha, if_neg hrf, htok, if_true]
    simp only [handle_visualisation, hp]
  · intro hstage ha hrf htok hfs hp
    simp only [handle_input, hne, Bool.false_eq_true, if_false,
      if_neg hq, if_neg hh, if_neg hr, hstage]
    simp only [handle_adjustment, if_neg ha, if_neg hrf, htok,
      Bool.false_eq_true, if_false, hfs, if_true, hp]

set_option maxRecDepth 8000 in
/-- C7 witness: the amended theorem evaluated on a failing visualization
directive in the VISUALISATION stage. -/
theorem C7_witness :
    handle_input trivialOracle
        { adjustExampleContext with stage := Stage.visualisation }
        "x=region" =
      .ok ({ adjustExampleContext with stage := Stage.visualisation },
        vizHint) :=
  ((C7_amended_theorem trivialOracle
      { adjustExampleContext with stage := Stage.visualisation } "x=region"
      (by decide) (by decide) (by decide) (by decide)).2.1) rfl (by decide)

/-- C8: the filters invariant — keys unique and, with an active dataset,
every key a column of it — is preserved by `select_dataset`, `add_filter`,
`set_visualization`, `reset` and every completed `handle_input` turn, and
holds in every reachable context. -/
theorem C8_theorem :
    (∀ (st st' : AgentState) (n : String) (ds : Dataset),
      select_dataset st n = .ok (st', ds) → FiltersWellFormed st') ∧
    (∀ (st st' : AgentState) (c : String) (v : FilterValue),
      FiltersWellFormed st → add_filter st c v = .ok st' →
      FiltersWellFormed st') ∧
    (∀ (st st' : AgentState) (ct : String) (xs ys bs : List String)
        (opts : List (String × String)) (viz : VizSpec),
      FiltersWellFormed st →
      set_visualization st ct xs ys bs opts = .ok (st', viz) →
      FiltersWellFormed st') ∧
    (∀ st : AgentState, FiltersWellFormed st.reset) ∧
    (∀ (o : Oracle) (ctx c' : ConversationContext) (msg r : String),
      FiltersWellFormed ctx.agent → handle_input o ctx msg = .ok (c', r) →
      FiltersWellFormed c'.agent) ∧
    (∀ ctx : ConversationContext, Reachable ctx →
      FiltersWellFormed ctx.agent) :=
  ⟨fun st st' n ds h => fw_select st st' n ds h,
   fun st st' c v hfw h => fw_add st st' c v hfw h,
   fun st st' ct xs ys bs opts viz hfw h =>
     fw_setviz st st' ct xs ys bs opts viz hfw h,
   fw_reset,
   fun o ctx c' msg r hfw h => handle_input_inv o ctx msg c' r hfw h,
   reachable_filters_wf⟩

/-- C8 witness: the preservation theorem evaluated on a concrete
`add_filter`. -/
theorem C8_witness :
    FiltersWellFormed { subscribersFreshState with
        filters := dictUpsert subscribersFreshState.filters "region"
          (FilterValue.scalar (.s "India")) } :=
  C8_theorem.2.1 subscribersFreshState _ "region"
    (FilterValue.scalar (.s "India"))
    ⟨by simp [subscribersFreshState],
     fun ds _ k hk => absurd hk (by simp [subscribersFreshState])⟩
    (by decide)

/-- C9: SUMMARY is never a steady state — no reachable context has stage
SUMMARY, and every completed turn from a reachable context ends in a stage
other than SUMMARY (the turn that passes through SUMMARY ends in ADJUST). -/
theorem C9_theorem :
    (∀ ctx : ConversationContext, Reachable ctx →
      ctx.stage ≠ Stage.summary) ∧
    (∀ (o : Oracle) (ctx c' : ConversationContext) (msg r : String),
      Reachable ctx → handle_input o ctx msg = .ok (c', r) →
      c'.stage ≠ Stage.summary) := by
  constructor
  · exact reachable_stage_not_summary
  · intro o ctx c' msg r hr hstep
    exact reachable_stage_not_summary c'
      (Reachable.step o ctx c' msg r hr hstep)

/-- C9 witness: the theorem evaluated on the initial and started
contexts. -/
theorem C9_witness :
    initialContext.stage ≠ Stage.summary ∧
    (startSession initialContext).1.stage ≠ Stage.summary :=
  ⟨C9_theorem.1 initialContext Reachable.init,
   C9_theorem.1 _ (Reachable.started initialContext Reachable.init)⟩

/-- C10: in the visualization directive scanner, a repeated key keeps the
value of its last occurrence (the parameter dict is a left fold of
upserts), and the first-listed synonym wins: `chart` over `type`, `x` over
`dimensions`, `y` over `metrics`; two concrete directives witness both
rules. -/
theorem C10_theorem :
    (∀ (ps : List (String × String)) (k : String),
      (vizParams ps).lookup k =
        ((ps.filter (fun p => p.1 == k)).getLast?).map (fun p => p.2)) ∧
    (∀ (text : String) (payload : VizPayload),
      parse_visualisation text = some payload →
      (∀ c, (vizParams (vizTokens (pyLower text))).lookup "chart" = some c →
        payload.chart_type = c) ∧
      ((vizParams (vizTokens (pyLower text))).lookup "chart" = none →
        ∀ tpe, (vizParams (vizTokens (pyLower text))).lookup "type" =
          some tpe → payload.chart_type = tpe) ∧
      (∀ x, (vizParams (vizTokens (pyLower text))).lookup "x" = some x →
        payload.x_fields = commaSplit x) ∧
      (∀ y, (vizParams (vizTokens (pyLower text))).lookup "y" = some y →
        payload.y_measures = commaSplit y)) ∧
    parse_visualisation "chart=bar type=line x=a y=b" =
      some ⟨"bar", ["a"], ["b"], [], []⟩ ∧
    parse_visualisation "chart=bar chart=line x=a y=b" =
      some ⟨"line", ["a"], ["b"], [], []⟩ := by
  refine ⟨?_, ?_, by decide, by decide⟩
  · intro ps k
    induction ps using List.reverseRecOn with
    | nil => simp [vizParams]
    | append_singleton ps p ih =>
      have hfold : vizParams (ps ++ [p]) = dictUpsert (vizParams ps) p.1 p.2 := by
        simp [vizParams, List.foldl_append]
      rw [hfold, List.filter_append]
      by_cases hk : p.1 = k
      · subst hk
        rw [dictUpsert_lookup_self]
        simp
      · rw [dictUpsert_lookup_ne _ _ _ _ (fun he => hk he.symm), ih]
        have : [p].filter (fun q => q.1 == k) = [] := by
          simp [beq_eq_false_iff_ne.mpr hk]
        rw [this, List.append_nil]
  · intro text payload h
    simp only [parse_visualisation] at h
    by_cases hps : (vizTokens (pyLower text)).isEmpty
    · rw [if_pos hps] at h
      exact Option.noConfusion h
    · rw [if_neg hps] at h
      cases hc : pyOrOpt ((vizParams (vizTokens (pyLower text))).lookup "chart")
          ((vizParams (vizTokens (pyLower text))).lookup "type") with
      | none => rw [hc] at h; exact Option.noConfusion h
      | some chart =>
        simp only [hc] at h
        cases hx : pyOrOpt ((vizParams (vizTokens (pyLower text))).lookup "x")
            ((vizParams (vizTokens (pyLower text))).lookup "dimensions") with
        | none => rw [hx] at h; exact Option.noConfusion h
        | some xv =>
          simp only [hx] at h
          cases hy : pyOrOpt ((vizParams (vizTokens (pyLower text))).lookup "y")
              ((vizParams (vizTokens (pyLower text))).lookup "metrics") with
          | none => rw [hy] at h; exact Option.noConfusion h
          | some yv =>
            simp only [hy] at h
            by_cases hct : chart ∈ chartTypes
            · rw [if_pos hct] at h
              cases h
              refine ⟨?_, ?_, ?_, ?_⟩
              · intro c hcc
                rw [hcc] at hc
                simp only [pyOrOpt] at hc
                exact (Option.some_inj.mp hc).symm
              · intro hnone tpe htpe
                rw [hnone, htpe] at hc
                simp only [pyOrOpt] at hc
                exact (Option.some_inj.mp hc).symm
              · intro x hxx
                rw [hxx] at hx
                simp only [pyOrOpt] at hx
                rw [Option.some_inj.mp hx]
              · intro y hyy
                rw [hyy] at hy
                simp only [pyOrOpt] at hy
                rw [Option.some_inj.mp hy]
            · rw [if_neg hct] at h
              exact Option.noConfusion h

/-- C10 witness: the precedence theorem evaluated on a concrete directive
with both `chart` and `type` present. -/
theorem C10_witness :
    (⟨"bar", ["a"], ["b"], [], []⟩ : VizPayload).chart_type = "bar" :=
  ((C10_theorem.2.1 "chart=bar type=line x=a y=b"
      ⟨"bar", ["a"], ["b"], [], []⟩ (by decide)).1) "bar" (by decide)

end Viz
